import Mathlib

/-!
Verification development for the aws-k8s-tester repository.

Part 1 models the Fargate profile poller (`Poll` and `IsProfileDeleted`
from the fargate tester package): the goroutine body is embedded as a
recursive function over a finite trace of scheduler/AWS events, emitting
the channel sends, the describe calls and the sleeps it performs.

Machine integers are modelled as `Int`/`Nat`; durations as `Nat`
(nanosecond counts; only their arithmetic structure matters).
-/

namespace AwsK8sTester

/-- Model of `*eks.FargateProfile` (only the `Status *string` field is
read by `Poll`; `aws.StringValue` of a nil pointer is `""`). -/
structure FargateProfile where
  status : Option String
deriving DecidableEq, Repr

/-- Value of `aws.StringValue` on an `*string`. -/
def awsStringValue : Option String → String
  | none => ""
  | some s => s

/-- Model of the `error` returned by `DescribeFargateProfile`: either an
`awserr.Error` (with a code and message) or a generic error. -/
inductive AwsErr where
  | api (code : String) (msg : String)
  | generic (msg : String)
deriving DecidableEq, Repr

/-- `err.Error()` for the modelled error (for an `awserr.Error` the code
is part of the message text). -/
def AwsErr.errorText : AwsErr → String
  | .api c m => c ++ ": " ++ m
  | .generic m => m

/-- Contiguous-sublist check used to model `strings.Contains`. -/
def containsChars (sub : List Char) : List Char → Bool
  | [] => sub.isEmpty
  | c :: rest => sub.isPrefixOf (c :: rest) || containsChars sub rest

/-- `strings.Contains`. -/
def containsStr (s sub : String) : Bool := containsChars sub.data s.data

/-- `IsProfileDeleted` from the fargate tester: true when the error is an
`awserr.Error` with code `ResourceNotFoundException`, or when the error
text contains `" not found "`. -/
def IsProfileDeleted : Option AwsErr → Bool
  | none => false
  | some e =>
    match e with
    | .api c _ => if c = "ResourceNotFoundException" then true else containsStr e.errorText " not found "
    | .generic m => containsStr m " not found "

/-- `FargateProfileStatusDELETEDORNOTEXIST`. -/
def FargateProfileStatusDELETEDORNOTEXIST : String := "DELETED/NOT-EXIST"

/-- `eks.FargateProfileStatusCreateFailed`. -/
def FargateProfileStatusCreateFailed : String := "CREATE_FAILED"

/-- `eks.FargateProfileStatusDeleteFailed`. -/
def FargateProfileStatusDeleteFailed : String := "DELETE_FAILED"

/-- The `error` values `Poll` can place in a `FargateProfileStatus`. -/
inductive PollErr where
  /-- `ctx.Err()` after the context is done. -/
  | ctxCancelled
  /-- `errors.New("wait stopped")`. -/
  | waitStopped
  /-- an error returned by `DescribeFargateProfile`. -/
  | describeFailed (e : AwsErr)
  /-- `fmt.Errorf("unexpected empty response ...")` when `output.FargateProfile` is nil. -/
  | emptyResponse
  /-- `fmt.Errorf("unexpected fargate status ...")`. -/
  | unexpectedStatus (s : String)
deriving DecidableEq, Repr

/-- `FargateProfileStatus` as sent on the channel. -/
structure FargateProfileStatus where
  fargateProfile : Option FargateProfile
  error : Option PollErr
deriving DecidableEq, Repr

/-- Result of one `DescribeFargateProfile` call: `output.FargateProfile`
(possibly nil) on success, or an error. -/
inductive DescribeResult where
  | ok (profile : Option FargateProfile)
  | err (e : AwsErr)
deriving DecidableEq, Repr

/-- Which branch of a `select` over ctx.Done/stopc/time.After fires. -/
inductive Gate where
  | ctxDone
  | stopc
  | timer
deriving DecidableEq, Repr

/-- One scheduler event for a loop iteration of `Poll`: either the
top-of-loop select aborts (context done — which also covers the loop
guard `ctx.Err() == nil` failing — or the stop channel firing), or the
timer fires and the describe call returns `r`. `initGate` tells which
branch of the one-off `initialWait` select fires, when that select is
reached in this iteration. -/
inductive PollStep where
  | ctxCancel
  | stopFire
  | describe (r : DescribeResult) (initGate : Gate)
deriving DecidableEq, Repr

/-- Observable events of a `Poll` run: sleeps (`time.After` durations),
issued `DescribeFargateProfile` calls, and channel sends. -/
inductive PollEv where
  | slept (d : Nat)
  | called
  | sent (s : FargateProfileStatus)
deriving DecidableEq, Repr

/-- The goroutine body of `Poll`, embedded over a finite event trace.
State: `waitDur` (starts at 0, set to `wait` at the first timer fire)
and `first` (whether the one-off `initialWait` sleep is still pending).
Returns the emitted events and, when the run sends a final value and
closes the channel, that final value (`none` = trace exhausted with the
channel still open). -/
def pollGo (desired : String) (wait initialWait : Nat) :
    List PollStep → Nat → Bool → List PollEv × Option FargateProfileStatus
  | [], _, _ => ([], none)
  | step :: rest, waitDur, first =>
    match step with
    | .ctxCancel =>
      ([.sent ⟨none, some .ctxCancelled⟩], some ⟨none, some .ctxCancelled⟩)
    | .stopFire =>
      ([.sent ⟨none, some .waitStopped⟩], some ⟨none, some .waitStopped⟩)
    | .describe r initGate =>
      -- very first poll is no-wait; wait from the second iteration
      let waitDur2 := if waitDur = 0 then wait else waitDur
      match r with
      | .err e =>
        if IsProfileDeleted (some e) then
          if desired = FargateProfileStatusDELETEDORNOTEXIST then
            ([.slept waitDur, .called, .sent ⟨none, none⟩], some ⟨none, none⟩)
          else
            ([.slept waitDur, .called, .sent ⟨none, some (.describeFailed e)⟩],
              some ⟨none, some (.describeFailed e)⟩)
        else
          -- describe failed; send the error and retry (continue skips the first-block)
          let rec2 := pollGo desired wait initialWait rest waitDur2 first
          (.slept waitDur :: .called :: .sent ⟨none, some (.describeFailed e)⟩ :: rec2.1, rec2.2)
      | .ok none =>
        let rec2 := pollGo desired wait initialWait rest waitDur2 first
        (.slept waitDur :: .called :: .sent ⟨none, some .emptyResponse⟩ :: rec2.1, rec2.2)
      | .ok (some p) =>
        let st := awsStringValue p.status
        if st = desired then
          ([.slept waitDur, .called, .sent ⟨some p, none⟩], some ⟨some p, none⟩)
        else if st = FargateProfileStatusCreateFailed ∨ st = FargateProfileStatusDeleteFailed then
          ([.slept waitDur, .called, .sent ⟨some p, some (.unexpectedStatus st)⟩],
            some ⟨some p, some (.unexpectedStatus st)⟩)
        else
          if first then
            match initGate with
            | .ctxDone =>
              ([.slept waitDur, .called, .sent ⟨some p, none⟩, .sent ⟨none, some .ctxCancelled⟩],
                some ⟨none, some .ctxCancelled⟩)
            | .stopc =>
              ([.slept waitDur, .called, .sent ⟨some p, none⟩, .sent ⟨none, some .waitStopped⟩],
                some ⟨none, some .waitStopped⟩)
            | .timer =>
              let rec2 := pollGo desired wait initialWait rest waitDur2 false
              (.slept waitDur :: .called :: .sent ⟨some p, none⟩ :: .slept initialWait :: rec2.1,
                rec2.2)
          else
            let rec2 := pollGo desired wait initialWait rest waitDur2 first
            (.slept waitDur :: .called :: .sent ⟨some p, none⟩ :: rec2.1, rec2.2)

/-- A whole run of `Poll`: the goroutine starts with `waitDur = 0` and
`first = true`. -/
def pollRun (desired : String) (wait initialWait : Nat) (steps : List PollStep) :
    List PollEv × Option FargateProfileStatus :=
  pollGo desired wait initialWait steps 0 true

/-- The sequence of values sent on the channel during a run. -/
def sentValues (evs : List PollEv) : List FargateProfileStatus :=
  evs.filterMap fun e =>
    match e with
    | .sent s => some s
    | _ => none

/-- For each `DescribeFargateProfile` call, the total time slept since the
previous call (`acc` carries sleep accumulated so far). -/
def callDelays : List PollEv → Nat → List Nat
  | [], _ => []
  | .slept d :: rest, acc => callDelays rest (acc + d)
  | .called :: rest, acc => acc :: callDelays rest 0
  | .sent _ :: rest, acc => callDelays rest acc

/-- Characterization of the final value a closing run of `Poll` sends:
either a nil-error value (carrying the profile at the desired status, or
nothing when a not-found error was observed while `DELETED/NOT-EXIST`
was desired), or a non-nil-error value (failed status other than the
desired one, profile not found while another status was desired,
context cancellation, or the stop channel). -/
def FinalOK (desired : String) (v : FargateProfileStatus) : Prop :=
  (∃ p, v = ⟨some p, none⟩ ∧ awsStringValue p.status = desired) ∨
  (v = ⟨none, none⟩ ∧ desired = FargateProfileStatusDELETEDORNOTEXIST) ∨
  (∃ p st, v = ⟨some p, some (.unexpectedStatus st)⟩ ∧
    (st = FargateProfileStatusCreateFailed ∨ st = FargateProfileStatusDeleteFailed) ∧
    st ≠ desired ∧ awsStringValue p.status = st) ∨
  (∃ e, v = ⟨none, some (.describeFailed e)⟩ ∧ IsProfileDeleted (some e) = true ∧
    desired ≠ FargateProfileStatusDELETEDORNOTEXIST) ∨
  v = ⟨none, some .ctxCancelled⟩ ∨ v = ⟨none, some .waitStopped⟩

/-- The delay pattern of a fixed-interval poller: every inter-call delay
is the fixed `wait`, except at most one of `wait + iw` (the one-off
`initialWait` sleep). -/
def TailOK (wait iw : Nat) (l : List Nat) : Prop :=
  (∀ d ∈ l, d = wait ∨ d = iw + wait) ∧ l.countP (fun d => d != wait) ≤ 1

/-!
Part 2 models the Fargate tester's `Create` and `Delete` methods. The
individual resource operations (Kubernetes/AWS calls and the config
`Sync`) are abstracted as an outcome environment assigning each
operation its result (`none` = success, `some msg` = the error); the
embedding records which operations were invoked and in what order.
-/

/-- The resource operations the Fargate tester performs. -/
inductive FgOp where
  | createNamespace
  | createRole
  | createSecret
  | createProfile
  | createPod
  | checkPod
  | checkNode
  | deletePod
  | deleteProfile
  | deleteRole
  | deleteSecret
  | deleteNamespace
deriving DecidableEq, Repr

/-- Outcome environment: the error (if any) each operation would return
when invoked, plus the result of `EKSConfig.Sync()`. -/
structure FgOutcomes where
  createNamespace : Option String
  createRole : Option String
  createSecret : Option String
  createPod : Option String
  createProfile : Option String
  checkPod : Option String
  checkNode : Option String
  deletePod : Option String
  deleteProfile : Option String
  deleteRole : Option String
  deleteSecret : Option String
  deleteNamespace : Option String
  syncErr : Option String
deriving DecidableEq, Repr

/-- Run a sequence of (operation, outcome) pairs in order, stopping at
the first failing operation (`if err := step(); err != nil return err`),
returning the error and the operations actually invoked. -/
def runSeq : List (FgOp × Option String) → Option String × List FgOp
  | [] => (none, [])
  | (s, r) :: rest =>
    match r with
    | some e => (some e, [s])
    | none =>
      let k := runSeq rest
      (k.1, s :: k.2)

/-- The ordered step list of `tester.Create`. -/
def createSeq (o : FgOutcomes) : List (FgOp × Option String) :=
  [(.createNamespace, o.createNamespace),
   (.createRole, o.createRole),
   (.createSecret, o.createSecret),
   (.createProfile, o.createProfile),
   (.createPod, o.createPod),
   (.checkPod, o.checkPod),
   (.checkNode, o.checkNode)]

/-- `tester.Create`: if `AddOnFargate.Created` is already true it returns
nil immediately; otherwise it sets `Created` to true first, runs the
steps in order stopping at the first error, and on full success returns
the result of the final `Sync`. Returns
(new Created flag, returned error, operations invoked). -/
def fargateCreate (o : FgOutcomes) (created : Bool) : Bool × Option String × List FgOp :=
  if created then (true, none, [])
  else
    let k := runSeq (createSeq o)
    match k.1 with
    | some e => (true, some e, k.2)
    | none => (true, o.syncErr, k.2)

/-- `tester.Delete`: if `AddOnFargate.Created` is false it returns nil
immediately. Otherwise it deletes the pod, the profile and the IAM role,
collecting (but — mirroring the source — never returning) their error
strings, then deletes the secret and the namespace (each returning its
error immediately on failure, leaving `Created` true), then resets
`Created` to false and returns the result of `Sync`. -/
def fargateDelete (o : FgOutcomes) (created : Bool) : Bool × Option String × List FgOp :=
  if !created then (false, none, [])
  else
    let errs : List String :=
      (match o.deletePod with
        | some e => ["failed to delete Fargate Pod (" ++ e ++ ")"]
        | none => []) ++
      (match o.deleteProfile with
        | some e => ["failed to delete Fargate profile (" ++ e ++ ")"]
        | none => []) ++
      (match o.deleteRole with
        | some e => ["failed to delete IAM Role (" ++ e ++ ")"]
        | none => [])
    -- `errs` is dead in the source: it is collected but never returned
    let _ := errs
    match o.deleteSecret with
    | some e => (true, some e, [.deletePod, .deleteProfile, .deleteRole, .deleteSecret])
    | none =>
      match o.deleteNamespace with
      | some e =>
        (true, some e, [.deletePod, .deleteProfile, .deleteRole, .deleteSecret, .deleteNamespace])
      | none =>
        (false, o.syncErr,
          [.deletePod, .deleteProfile, .deleteRole, .deleteSecret, .deleteNamespace])

/-- The outcome of the i-th create step. -/
def createOutcomeAt (o : FgOutcomes) : Nat → Option String
  | 0 => o.createNamespace
  | 1 => o.createRole
  | 2 => o.createSecret
  | 3 => o.createProfile
  | 4 => o.createPod
  | 5 => o.checkPod
  | 6 => o.checkNode
  | _ => none

/-- The fixed order of the create steps. -/
def createOrder : List FgOp :=
  [.createNamespace, .createRole, .createSecret, .createProfile, .createPod, .checkPod, .checkNode]

/-!
Part 3 models the `eksconfig` configuration schema and its
`ValidateAndSetDefaults` chain (validate-defaults.go). Effectful
standard-library calls (`os.Getwd`, `os.MkdirAll`, `exec.LookPath`,
`fileutil.Exist`, `strconv.ParseFloat`, `randString`) and repository
constants declared outside the provided sources (`NGsMaxLimit`,
`DefaultNodeVolumeSize`, ...) are abstracted into an environment
oracle `Ext`. `float64` values are modelled as `ℚ`; Go maps iterated by
`range` are modelled as association lists.
-/

/-- `strings.ToLower`, as the per-character map over the decoded
characters (`Char.toLower` matches Go on the ASCII range in use). -/
def goToLower (s : String) : String := ⟨s.data.map Char.toLower⟩

/-- `strings.ToUpper`, as the per-character map. -/
def goToUpper (s : String) : String := ⟨s.data.map Char.toUpper⟩

/-- `strings.ReplaceAll` on character lists (all non-overlapping
occurrences, left to right), structurally recursive on a fuel that each
step decreases while consuming at least one character. The validators
only call it with the non-empty pattern `".yaml"`; for an empty pattern
this model returns the string unchanged. -/
def replaceAllChars (pat rep : List Char) : Nat → List Char → List Char
  | 0, s => s
  | _ + 1, [] => []
  | fuel + 1, c :: rest =>
    if pat ≠ [] ∧ pat.isPrefixOf (c :: rest) then
      rep ++ replaceAllChars pat rep fuel ((c :: rest).drop pat.length)
    else
      c :: replaceAllChars pat rep fuel rest

/-- `strings.ReplaceAll` (the fuel `s.length` suffices: every step
consumes at least one character). -/
def replaceAll (s pat rep : String) : String :=
  ⟨replaceAllChars pat.data rep.data s.data.length s.data⟩

/-- Scan of `filepath.Ext` over the reversed character list: walk from
the end of the path, return `""` on a separator, and the suffix from the
last dot otherwise. -/
def extChars : List Char → List Char → String
  | [], _ => ""
  | c :: rest, acc =>
    if c = '/' then ""
    else if c = '.' then ⟨'.' :: acc⟩
    else extChars rest (c :: acc)

/-- `filepath.Ext`. -/
def filepathExt (p : String) : String := extChars p.data.reverse []

/-- `filepath.Dir`, without Go's `Clean` normalization (no claim depends
on the cleaned spelling of a directory). -/
def dirPath (p : String) : String :=
  let parts := p.splitOn "/"
  if parts.length ≤ 1 then "." else String.intercalate "/" parts.dropLast

/-- `filepath.Join` / `path.Join` for two components, without `Clean`. -/
def joinPath (a b : String) : String := if a = "" then b else a ++ "/" ++ b

/-- A character matched by neither class of `secretRegex`
(`[^a-zA-Z0-9]+`): an ASCII letter or digit, as codepoint ranges. -/
def isAlnumASCII (c : Char) : Bool :=
  ((97 ≤ c.toNat ∧ c.toNat ≤ 122) ∨ (65 ≤ c.toNat ∧ c.toNat ≤ 90) ∨
    (48 ≤ c.toNat ∧ c.toNat ≤ 57) : Prop)

/-- `secretRegex.ReplaceAllString(s, "")`: replacing every maximal run
of non-alphanumeric characters with the empty string removes exactly the
non-alphanumeric characters. -/
def secretRegexReplaceAll (s : String) : String := ⟨s.data.filter isAlnumASCII⟩

/-- `getNameFromARN`: the part after the last slash. -/
def getNameFromARN (arn : String) : String :=
  let ss := arn.splitOn "/"
  if ss.length > 0 then ss.getLastD arn else arn

/-- Wrap an `int64` into `int32` range (the `int32(...)` conversions on
`ASGDesiredCapacity`). -/
def toInt32 (i : Int) : Int := (i + 2 ^ 31) % 2 ^ 32 - 2 ^ 31

/-- `eks.AMITypesAl2X8664` (AWS SDK constant). -/
def AMITypesAl2X8664 : String := "AL2_x86_64"

/-- `eks.AMITypesAl2X8664Gpu` (AWS SDK constant). -/
def AMITypesAl2X8664Gpu : String := "AL2_x86_64_GPU"

/-- Environment oracle for the validators: effectful standard-library
calls, `aws.RegionToAiport` (pkg/aws, outside the provided sources),
`randString`, and the limit/default constants declared in eksconfig's
eks-config.go, which is not among the provided sources (the claims do
not depend on their concrete values). `strconv.ParseFloat` results are
modelled as rationals. -/
structure Ext where
  regionFound : String → Bool
  getwd : Option String
  tempDir : String
  mkdirAll : String → Bool
  abs : String → Option String
  lookPath : String → Option String
  fileExist : String → Bool
  parseFloat : String → Option ℚ
  goos : String
  rand10 : String
  ngsMaxLimit : Int
  ngMaxLimit : Int
  mngsMaxLimit : Int
  mngMaxLimit : Int
  defaultNodeVolumeSize : Int
  defaultNodeInstanceTypeCPU : String
  defaultNodeInstanceTypeGPU : String
  amiTypeBottleRocketCPU : String

/-- `ec2config.ASG` (the fields read or written by the validators). -/
structure ASG where
  name : String
  remoteAccessUserName : String
  amiType : String
  asgMinSize : Int
  asgMaxSize : Int
  asgDesiredCapacity : Int
  instanceTypes : List String
  volumeSize : Int
  ssmDocumentCreate : Bool
  ssmDocumentName : String
  ssmDocumentExecutionTimeoutSeconds : Int
deriving DecidableEq, Repr

/-- `eksconfig.MNG` (the fields read or written by the validators). -/
structure MNG where
  name : String
  remoteAccessUserName : String
  releaseVersion : String
  amiType : String
  asgMinSize : Int
  asgMaxSize : Int
  asgDesiredCapacity : Int
  instanceTypes : List String
  volumeSize : Int
deriving DecidableEq, Repr

/-- `eksconfig.Parameters` (the fields read or written by the validators). -/
structure Parameters where
  roleName : String
  roleCreate : Bool
  roleARN : String
  roleServicePrincipals : List String
  roleManagedPolicyARNs : List String
  vpcCreate : Bool
  vpcID : String
  vpcCIDR : String
  publicSubnetCIDR1 : String
  publicSubnetCIDR2 : String
  publicSubnetCIDR3 : String
  privateSubnetCIDR1 : String
  privateSubnetCIDR2 : String
  version : String
  versionValue : ℚ
  encryptionCMKCreate : Bool
  encryptionCMKARN : String
deriving DecidableEq, Repr

/-- `eksconfig.AddOnNodeGroups`. -/
structure AddOnNodeGroups where
  enable : Bool
  roleName : String
  roleCreate : Bool
  roleARN : String
  roleServicePrincipals : List String
  roleManagedPolicyARNs : List String
  asgs : List (String × ASG)
  logsDir : String
deriving DecidableEq, Repr

/-- `eksconfig.AddOnManagedNodeGroups`. -/
structure AddOnManagedNodeGroups where
  enable : Bool
  roleName : String
  roleCreate : Bool
  roleARN : String
  roleServicePrincipals : List String
  roleManagedPolicyARNs : List String
  mngs : List (String × MNG)
  logsDir : String
deriving DecidableEq, Repr

/-- `eksconfig.AddOnNLBHelloWorld`. -/
structure AddOnNLBHelloWorld where
  enable : Bool
  deploymentReplicas : Int
  «namespace» : String
deriving DecidableEq, Repr

/-- `eksconfig.AddOnALB2048`. -/
structure AddOnALB2048 where
  enable : Bool
  deploymentReplicasALB : Int
  deploymentReplicas2048 : Int
  «namespace» : String
deriving DecidableEq, Repr

/-- `eksconfig.AddOnJobPi`. -/
structure AddOnJobPi where
  enable : Bool
  «namespace» : String
deriving DecidableEq, Repr

/-- `eksconfig.AddOnJobEcho`. -/
structure AddOnJobEcho where
  enable : Bool
  «namespace» : String
  echoSize : Int
deriving DecidableEq, Repr

/-- `eksconfig.AddOnCronJob`. -/
structure AddOnCronJob where
  enable : Bool
  «namespace» : String
  echoSize : Int
deriving DecidableEq, Repr

/-- `eksconfig.AddOnSecrets`. -/
structure AddOnSecrets where
  enable : Bool
  «namespace» : String
  writesResultPath : String
  readsResultPath : String
deriving DecidableEq, Repr

/-- `eksconfig.AddOnIRSA`. -/
structure AddOnIRSA where
  enable : Bool
  «namespace» : String
  roleName : String
  serviceAccountName : String
  configMapName : String
  configMapScriptFileName : String
  s3Key : String
  deploymentName : String
  deploymentResultPath : String
deriving DecidableEq, Repr

/-- `eksconfig.AddOnFargate`. -/
structure AddOnFargate where
  enable : Bool
  «namespace» : String
  roleName : String
  roleCreate : Bool
  roleARN : String
  roleServicePrincipals : List String
  roleManagedPolicyARNs : List String
  profileName : String
  secretName : String
  podName : String
  containerName : String
deriving DecidableEq, Repr

/-- `eksconfig.AddOnAppMesh`. -/
structure AddOnAppMesh where
  enable : Bool
  «namespace» : String
deriving DecidableEq, Repr

/-- `eksconfig.Config` (the fields read or written by the validators). -/
structure Config where
  name : String
  region : String
  configPath : String
  kubeConfigPath : String
  kubectlCommandsOutputPath : String
  remoteAccessCommandsOutputPath : String
  commandAfterCreateCluster : String
  commandAfterCreateClusterOutputPath : String
  commandAfterCreateAddOns : String
  commandAfterCreateAddOnsOutputPath : String
  logOutputs : List String
  kubectlDownloadURL : String
  s3BucketName : String
  s3BucketCreate : Bool
  s3BucketLifecycleExpirationDays : Int
  remoteAccessKeyCreate : Bool
  remoteAccessKeyName : String
  remoteAccessPrivateKeyPath : String
  parameters : Parameters
  addOnNodeGroups : AddOnNodeGroups
  addOnManagedNodeGroups : AddOnManagedNodeGroups
  addOnNLBHelloWorld : AddOnNLBHelloWorld
  addOnALB2048 : AddOnALB2048
  addOnJobPi : AddOnJobPi
  addOnJobEcho : AddOnJobEcho
  addOnCronJob : AddOnCronJob
  addOnSecrets : AddOnSecrets
  addOnIRSA : AddOnIRSA
  addOnFargate : AddOnFargate
  addOnAppMesh : AddOnAppMesh
deriving DecidableEq, Repr

/-- Modelled from the spec: the `IsEnabledAddOnNodeGroups` helper is
declared in eksconfig's eks-config.go, which is not among the provided
sources; the add-on pointer, always allocated by the default
configuration, is modelled as a plain struct field, so the helper is the
add-on's `Enable` flag. The same applies to the other `IsEnabled...`
helpers below. -/
def IsEnabledAddOnNodeGroups (cfg : Config) : Bool := cfg.addOnNodeGroups.enable

/-- Modelled from the spec: see `IsEnabledAddOnNodeGroups`. -/
def IsEnabledAddOnManagedNodeGroups (cfg : Config) : Bool := cfg.addOnManagedNodeGroups.enable

/-- Modelled from the spec: see `IsEnabledAddOnNodeGroups`. -/
def IsEnabledAddOnNLBHelloWorld (cfg : Config) : Bool := cfg.addOnNLBHelloWorld.enable

/-- Modelled from the spec: see `IsEnabledAddOnNodeGroups`. -/
def IsEnabledAddOnALB2048 (cfg : Config) : Bool := cfg.addOnALB2048.enable

/-- Modelled from the spec: see `IsEnabledAddOnNodeGroups`. -/
def IsEnabledAddOnJobPi (cfg : Config) : Bool := cfg.addOnJobPi.enable

/-- Modelled from the spec: see `IsEnabledAddOnNodeGroups`. -/
def IsEnabledAddOnJobEcho (cfg : Config) : Bool := cfg.addOnJobEcho.enable

/-- Modelled from the spec: see `IsEnabledAddOnNodeGroups`. -/
def IsEnabledAddOnCronJob (cfg : Config) : Bool := cfg.addOnCronJob.enable

/-- Modelled from the spec: see `IsEnabledAddOnNodeGroups`. -/
def IsEnabledAddOnSecrets (cfg : Config) : Bool := cfg.addOnSecrets.enable

/-- Modelled from the spec: see `IsEnabledAddOnNodeGroups`. -/
def IsEnabledAddOnIRSA (cfg : Config) : Bool := cfg.addOnIRSA.enable

/-- Modelled from the spec: see `IsEnabledAddOnNodeGroups`. -/
def IsEnabledAddOnFargate (cfg : Config) : Bool := cfg.addOnFargate.enable

/-- Modelled from the spec: see `IsEnabledAddOnNodeGroups`. -/
def IsEnabledAddOnAppMesh (cfg : Config) : Bool := cfg.addOnAppMesh.enable

/-- Does the association-list model of a Go map contain the key? -/
def assocHas {α : Type} (l : List (String × α)) (k : String) : Bool :=
  l.any fun kv => kv.1 = k

/-- `m[k] = v` on the association-list model of a Go map (the loops only
update keys they are iterating over, which are present). -/
def assocSet {α : Type} (l : List (String × α)) (k : String) (v : α) : List (String × α) :=
  l.map fun kv => if kv.1 = k then (k, v) else kv

/-- Chain an `Except` result into the next validation step. -/
def thenE (r : Except String Config) (f : Config → Except String Config) :
    Except String Config :=
  match r with
  | .error e => .error e
  | .ok c => f c

/-- `validateConfig`: ConfigPath defaulting (`os.Getwd`, falling back to
a fresh temp directory, then `filepath.Abs`, which panics on error). -/
def resolveConfigPath (x : Ext) (cfg : Config) : Except String Config :=
  if cfg.configPath = "" then
    match x.getwd with
    | some rootDir =>
      match x.abs (joinPath rootDir (cfg.name ++ ".yaml")) with
      | some p => .ok { cfg with configPath := p }
      | none => .error "panic: filepath.Abs failed"
    | none =>
      let rootDir := joinPath x.tempDir cfg.name
      if x.mkdirAll rootDir then
        match x.abs (joinPath rootDir (cfg.name ++ ".yaml")) with
        | some p => .ok { cfg with configPath := p }
        | none => .error "panic: filepath.Abs failed"
      else .error "MkdirAll failed"
  else .ok cfg

/-- `validateConfig`: append the ConfigPath-derived log file when
LogOutputs is exactly a lone stderr/stdout entry. -/
def fillLogOutputs (cfg : Config) : Config :=
  if cfg.logOutputs.length = 1 ∧
      (cfg.logOutputs.headD "" = "stderr" ∨ cfg.logOutputs.headD "" = "stdout") then
    { cfg with logOutputs := cfg.logOutputs ++ [cfg.configPath ++ ".log"] }
  else cfg

/-- `validateConfig`: default KubectlCommandsOutputPath and force a
`.sh` extension. -/
def fillKubectlCommandsOutputPath (cfg : Config) : Config :=
  let cfg :=
    if cfg.kubectlCommandsOutputPath = "" then
      { cfg with kubectlCommandsOutputPath :=
          replaceAll cfg.configPath ".yaml" "" ++ ".kubectl.sh" }
    else cfg
  if filepathExt cfg.kubectlCommandsOutputPath ≠ ".sh" then
    { cfg with kubectlCommandsOutputPath := cfg.kubectlCommandsOutputPath ++ ".sh" }
  else cfg

/-- `validateConfig`: default RemoteAccessCommandsOutputPath and force a
`.sh` extension. -/
def fillRemoteAccessCommandsOutputPath (cfg : Config) : Config :=
  let cfg :=
    if cfg.remoteAccessCommandsOutputPath = "" then
      { cfg with remoteAccessCommandsOutputPath :=
          replaceAll cfg.configPath ".yaml" "" ++ ".ssh.sh" }
    else cfg
  if filepathExt cfg.remoteAccessCommandsOutputPath ≠ ".sh" then
    { cfg with remoteAccessCommandsOutputPath := cfg.remoteAccessCommandsOutputPath ++ ".sh" }
  else cfg

/-- `validateConfig`: default CommandAfterCreateClusterOutputPath and
force a `.log` extension. -/
def fillCommandAfterCreateClusterOutputPath (cfg : Config) : Config :=
  let cfg :=
    if cfg.commandAfterCreateClusterOutputPath = "" then
      { cfg with commandAfterCreateClusterOutputPath :=
          replaceAll cfg.configPath ".yaml" "" ++ ".after-create-cluster.out.log" }
    else cfg
  if filepathExt cfg.commandAfterCreateClusterOutputPath ≠ ".log" then
    { cfg with commandAfterCreateClusterOutputPath :=
        cfg.commandAfterCreateClusterOutputPath ++ ".log" }
  else cfg

/-- `validateConfig`: default CommandAfterCreateAddOnsOutputPath and
force a `.log` extension. -/
def fillCommandAfterCreateAddOnsOutputPath (cfg : Config) : Config :=
  let cfg :=
    if cfg.commandAfterCreateAddOnsOutputPath = "" then
      { cfg with commandAfterCreateAddOnsOutputPath :=
          replaceAll cfg.configPath ".yaml" "" ++ ".after-create-add-ons.out.log" }
    else cfg
  if filepathExt cfg.commandAfterCreateAddOnsOutputPath ≠ ".log" then
    { cfg with commandAfterCreateAddOnsOutputPath :=
        cfg.commandAfterCreateAddOnsOutputPath ++ ".log" }
  else cfg

/-- `validateConfig`: default KubeConfigPath (no extension check). -/
def fillKubeConfigPath (cfg : Config) : Config :=
  if cfg.kubeConfigPath = "" then
    { cfg with kubeConfigPath := replaceAll cfg.configPath ".yaml" "" ++ ".kubeconfig.yaml" }
  else cfg

/-- `validateConfig`: resolve a non-empty command's binary through
`exec.LookPath` and rejoin the arguments. -/
def resolveCommand (x : Ext) (cmd : String) : Except String String :=
  if cmd = "" then .ok cmd
  else
    let ss := cmd.splitOn " "
    match x.lookPath (ss.headD "") with
    | none => .error "command does not exist"
    | some p => .ok (String.intercalate " " (p :: ss.tail))

/-- `validateConfig`: S3 bucket defaulting. -/
def fillS3 (cfg : Config) : Config :=
  if cfg.s3BucketCreate then
    let cfg :=
      if cfg.s3BucketName = "" then { cfg with s3BucketName := cfg.name ++ "-s3-bucket" }
      else cfg
    if cfg.s3BucketLifecycleExpirationDays > 0 ∧ cfg.s3BucketLifecycleExpirationDays < 3 then
      { cfg with s3BucketLifecycleExpirationDays := 3 }
    else cfg
  else cfg

/-- `validateConfig`: the four leading field checks (region known, name
non-empty and lower-case, LogOutputs non-empty). -/
def checkBasics (x : Ext) (cfg : Config) : Except String Config :=
  if ¬ x.regionFound cfg.region then .error "region not found"
  else if cfg.name.length = 0 then .error "Name is empty"
  else if cfg.name ≠ goToLower cfg.name then .error "Name must be in lower-case"
  else if cfg.logOutputs.length = 0 then .error "LogOutputs is not empty"
  else .ok cfg

/-- `validateConfig`: `os.MkdirAll(filepath.Dir(cfg.ConfigPath), 0700)`. -/
def checkMkdirConfigDir (x : Ext) (cfg : Config) : Except String Config :=
  if ¬ x.mkdirAll (dirPath cfg.configPath) then .error "MkdirAll failed" else .ok cfg

/-- `validateConfig`: the KubectlDownloadURL build-OS check. -/
def checkKubectlURL (x : Ext) (cfg : Config) : Except String Config :=
  if ¬ containsStr cfg.kubectlDownloadURL x.goos then
    .error "kubectl-download-url build OS mismatch"
  else .ok cfg

/-- `validateConfig`: resolve both after-create commands through
`exec.LookPath`. -/
def resolveCommands (x : Ext) (cfg : Config) : Except String Config :=
  match resolveCommand x cfg.commandAfterCreateCluster with
  | .error e => .error e
  | .ok c1 =>
    match resolveCommand x cfg.commandAfterCreateAddOns with
    | .error e => .error e
    | .ok c2 =>
      .ok { cfg with
        commandAfterCreateCluster := c1
        commandAfterCreateAddOns := c2 }

/-- Apply the output-path defaulting statements of `validateConfig` in
source order. -/
def fillOutputPaths (cfg : Config) : Config :=
  fillKubeConfigPath
    (fillCommandAfterCreateAddOnsOutputPath
      (fillCommandAfterCreateClusterOutputPath
        (fillRemoteAccessCommandsOutputPath
          (fillKubectlCommandsOutputPath (fillLogOutputs cfg)))))

/-- `(cfg *Config) validateConfig()`. -/
def validateConfig (x : Ext) (cfg : Config) : Except String Config :=
  thenE (checkBasics x cfg) fun cfg =>
    thenE (resolveConfigPath x cfg) fun cfg =>
      thenE (checkMkdirConfigDir x cfg) fun cfg =>
        thenE (checkKubectlURL x (fillOutputPaths cfg)) fun cfg =>
          thenE (resolveCommands x cfg) fun cfg =>
            .ok (fillS3 cfg)

/-- `validateParameters`: the `switch cfg.Parameters.RoleCreate`. -/
def paramsRoleStep (cfg : Config) : Except String Config :=
  if cfg.parameters.roleCreate then
    .ok (if cfg.parameters.roleName = "" then
        { cfg with parameters := { cfg.parameters with roleName := cfg.name ++ "-role-cluster" } }
      else cfg)
  else
    if cfg.parameters.roleARN = "" then
      .error "Parameters.RoleCreate false; expect non-empty RoleARN"
    else
      let cfg :=
        if cfg.parameters.roleName = "" then
          { cfg with parameters :=
              { cfg.parameters with roleName := getNameFromARN cfg.parameters.roleARN } }
        else cfg
      if cfg.parameters.roleManagedPolicyARNs.length > 0 then
        .error "Parameters.RoleCreate false; expect empty RoleManagedPolicyARNs"
      else if cfg.parameters.roleServicePrincipals.length > 0 then
        .error "Parameters.RoleCreate false; expect empty RoleServicePrincipals"
      else .ok cfg

/-- `validateParameters`: the `switch cfg.Parameters.VPCCreate`. -/
def paramsVPCStep (cfg : Config) : Except String Config :=
  if cfg.parameters.vpcCreate then .ok cfg
  else if cfg.parameters.vpcID = "" then
    .error "Parameters.RoleCreate false; expect non-empty VPCID"
  else .ok cfg

/-- `validateParameters`: the VPC/subnet CIDR cross-checks. -/
def paramsCIDRStep (cfg : Config) : Except String Config :=
  if cfg.parameters.vpcCIDR ≠ "" then
    if cfg.parameters.publicSubnetCIDR1 = "" then .error "empty Parameters.PublicSubnetCIDR1"
    else if cfg.parameters.publicSubnetCIDR2 = "" then .error "empty Parameters.PublicSubnetCIDR2"
    else if cfg.parameters.publicSubnetCIDR3 = "" then .error "empty Parameters.PublicSubnetCIDR3"
    else if cfg.parameters.privateSubnetCIDR1 = "" then
      .error "empty Parameters.PrivateSubnetCIDR1"
    else if cfg.parameters.privateSubnetCIDR2 = "" then
      .error "empty Parameters.PrivateSubnetCIDR2"
    else .ok cfg
  else
    if cfg.parameters.publicSubnetCIDR1 ≠ "" then
      .error "non-empty Parameters.PublicSubnetCIDR1 when VPCCIDR is empty"
    else if cfg.parameters.publicSubnetCIDR2 ≠ "" then
      .error "non-empty Parameters.PublicSubnetCIDR2 when VPCCIDR is empty"
    else if cfg.parameters.publicSubnetCIDR3 ≠ "" then
      .error "non-empty Parameters.PublicSubnetCIDR3 when VPCCIDR is empty"
    else if cfg.parameters.privateSubnetCIDR1 ≠ "" then
      .error "non-empty Parameters.PrivateSubnetCIDR1 when VPCCIDR is empty"
    else if cfg.parameters.privateSubnetCIDR2 ≠ "" then
      .error "non-empty Parameters.PrivateSubnetCIDR2 when VPCCIDR is empty"
    else .ok cfg

/-- `validateParameters`: the remote-access key switch. -/
def paramsKeyStep (x : Ext) (cfg : Config) : Except String Config :=
  if cfg.remoteAccessPrivateKeyPath = "" then .error "empty RemoteAccessPrivateKeyPath"
  else if cfg.remoteAccessKeyCreate then
    .ok (if cfg.remoteAccessKeyName = "" then
        { cfg with remoteAccessKeyName := cfg.name ++ "-key-nodes" }
      else cfg)
  else
    if cfg.remoteAccessKeyName = "" then
      .error "RemoteAccessKeyCreate false; expect non-empty RemoteAccessKeyName"
    else if ¬ x.fileExist cfg.remoteAccessPrivateKeyPath then
      .error "RemoteAccessPrivateKeyPath does not exist"
    else .ok cfg

/-- `(cfg *Config) validateParameters()` (the encryption-CMK switch has
no effect: its error is commented out in the source). -/
def validateParameters (x : Ext) (cfg : Config) : Except String Config :=
  if cfg.parameters.version = "" then .error "empty Parameters.Version"
  else
    match x.parseFloat cfg.parameters.version with
    | none => .error "cannot parse Parameters.Version"
    | some vv =>
      let cfg := { cfg with parameters := { cfg.parameters with versionValue := vv } }
      thenE (paramsRoleStep cfg) fun cfg =>
        thenE (paramsVPCStep cfg) fun cfg =>
          thenE (paramsCIDRStep cfg) fun cfg =>
            paramsKeyStep x cfg

/-- The role switch shared shape of `validateAddOnNodeGroups` (true
branch additionally requires `ec2.amazonaws.com` among any provided
service principals). Parameterized record-free: specialized below. -/
def ngRoleStep (cfg : Config) : Except String Config :=
  if cfg.addOnNodeGroups.roleCreate then
    let cfg :=
      if cfg.addOnNodeGroups.roleName = "" then
        { cfg with addOnNodeGroups :=
            { cfg.addOnNodeGroups with roleName := cfg.name ++ "-role-ng" } }
      else cfg
    if cfg.addOnNodeGroups.roleServicePrincipals.length > 0 ∧
        ¬ cfg.addOnNodeGroups.roleServicePrincipals.contains "ec2.amazonaws.com" then
      .error "AddOnNodeGroups.RoleServicePrincipals must include ec2.amazonaws.com"
    else .ok cfg
  else
    if cfg.addOnNodeGroups.roleARN = "" then
      .error "AddOnNodeGroups.RoleCreate false; expect non-empty RoleARN"
    else
      let cfg :=
        if cfg.addOnNodeGroups.roleName = "" then
          { cfg with addOnNodeGroups :=
              { cfg.addOnNodeGroups with
                roleName := getNameFromARN cfg.addOnNodeGroups.roleARN } }
        else cfg
      if cfg.addOnNodeGroups.roleManagedPolicyARNs.length > 0 then
        .error "AddOnNodeGroups.RoleCreate false; expect empty RoleManagedPolicyARNs"
      else if cfg.addOnNodeGroups.roleServicePrincipals.length > 0 then
        .error "AddOnNodeGroups.RoleCreate false; expect empty RoleServicePrincipals"
      else .ok cfg

/-- The first `switch v.AMIType` of the NG loop body: the
remote-access-user check (BottleRocket and the two AL2 types all demand
`ec2-user`). -/
def ngUserCheck (x : Ext) (v : ASG) : Except String ASG :=
  if v.amiType = x.amiTypeBottleRocketCPU then
    if v.remoteAccessUserName ≠ "ec2-user" then .error "unexpected RemoteAccessUserName"
    else .ok v
  else if v.amiType = AMITypesAl2X8664 then
    if v.remoteAccessUserName ≠ "ec2-user" then .error "unexpected RemoteAccessUserName"
    else .ok v
  else if v.amiType = AMITypesAl2X8664Gpu then
    if v.remoteAccessUserName ≠ "ec2-user" then .error "unexpected RemoteAccessUserName"
    else .ok v
  else .error "unknown ASGs AMIType"

/-- The second `switch v.AMIType` of the NG loop body: default
InstanceTypes (CPU for BottleRocket/AL2, GPU for AL2-GPU). -/
def ngInstanceFill (x : Ext) (v : ASG) : Except String ASG :=
  if v.amiType = x.amiTypeBottleRocketCPU then
    .ok (if v.instanceTypes.length = 0 then
        { v with instanceTypes := [x.defaultNodeInstanceTypeCPU] }
      else v)
  else if v.amiType = AMITypesAl2X8664 then
    .ok (if v.instanceTypes.length = 0 then
        { v with instanceTypes := [x.defaultNodeInstanceTypeCPU] }
      else v)
  else if v.amiType = AMITypesAl2X8664Gpu then
    .ok (if v.instanceTypes.length = 0 then
        { v with instanceTypes := [x.defaultNodeInstanceTypeGPU] }
      else v)
  else .error "unknown AddOnNodeGroups.ASGs AMIType"

/-- The NLB/ALB legacy-instance-type rejection shared by the NG and MNG
loop bodies (`m3.`/`c4.` prefixes are unsupported targets). -/
def oldInstanceCheck (cfg : Config) (instanceTypes : List String) : Bool :=
  (IsEnabledAddOnNLBHelloWorld cfg || IsEnabledAddOnALB2048 cfg) &&
    instanceTypes.any fun ivt => ivt.startsWith "m3." || ivt.startsWith "c4."

/-- The replica bumps at the end of the NG/MNG loop bodies: raise the
NLB/ALB deployment replica counts to the ASG desired capacity. -/
def bumpReplicas (cfg : Config) (desired : Int) : Config :=
  let cfg :=
    if IsEnabledAddOnNLBHelloWorld cfg ∧
        cfg.addOnNLBHelloWorld.deploymentReplicas < toInt32 desired then
      { cfg with addOnNLBHelloWorld :=
          { cfg.addOnNLBHelloWorld with deploymentReplicas := toInt32 desired } }
    else cfg
  let cfg :=
    if IsEnabledAddOnALB2048 cfg ∧
        cfg.addOnALB2048.deploymentReplicasALB < toInt32 desired then
      { cfg with addOnALB2048 :=
          { cfg.addOnALB2048 with deploymentReplicasALB := toInt32 desired } }
    else cfg
  if IsEnabledAddOnALB2048 cfg ∧
      cfg.addOnALB2048.deploymentReplicas2048 < toInt32 desired then
    { cfg with addOnALB2048 :=
        { cfg.addOnALB2048 with deploymentReplicas2048 := toInt32 desired } }
  else cfg

/-- The VolumeSize / RemoteAccessUserName defaulting at the top of the
NG loop body. -/
def ngFillVolumeUser (x : Ext) (v : ASG) : ASG :=
  let v := if v.volumeSize = 0 then { v with volumeSize := x.defaultNodeVolumeSize } else v
  if v.remoteAccessUserName = "" then { v with remoteAccessUserName := "ec2-user" } else v

/-- The `switch v.SSMDocumentCreate` defaulting of the NG loop body. -/
def ngFillSSM (v : ASG) : ASG :=
  if v.ssmDocumentCreate then
    let v :=
      if v.ssmDocumentName = "" then { v with ssmDocumentName := v.name ++ "SSMDocument" }
      else v
    if v.ssmDocumentExecutionTimeoutSeconds = 0 then
      { v with ssmDocumentExecutionTimeoutSeconds := 3600 }
    else v
  else v

/-- `cfg.AddOnNodeGroups.ASGs[k] = v`. -/
def setASGs (cfg : Config) (k : String) (v : ASG) : Config :=
  { cfg with addOnNodeGroups :=
      { cfg.addOnNodeGroups with asgs := assocSet cfg.addOnNodeGroups.asgs k v } }

/-- The `for k, v := range cfg.AddOnNodeGroups.ASGs` loop of
`validateAddOnNodeGroups`, iterating over the association-list model of
the map (`names` is the duplicate-name set). -/
def ngLoop (x : Ext) (cfg : Config) (names : List String) :
    List (String × ASG) → Except String Config
  | [] => .ok cfg
  | (k, v) :: rest =>
    if v.name = "" then .error "AddOnNodeGroups.ASGs Name is empty"
    else if k ≠ v.name then .error "AddOnNodeGroups.ASGs Name has different Name field"
    else if names.contains v.name then .error "AddOnNodeGroups.ASGs Name is redundant"
    else if v.instanceTypes.length > 4 then .error "too many InstaceTypes"
    else
      match ngUserCheck x (ngFillVolumeUser x v) with
      | .error e => .error e
      | .ok v2 =>
        match ngInstanceFill x v2 with
        | .error e => .error e
        | .ok v3 =>
          if oldInstanceCheck cfg v3.instanceTypes then
            .error "older instance type for NLB/ALB"
          else if v3.asgMinSize > v3.asgMaxSize then
            .error "AddOnNodeGroups.ASGs ASGMinSize > ASGMaxSize"
          else if v3.asgDesiredCapacity > v3.asgMaxSize then
            .error "AddOnNodeGroups.ASGs ASGDesiredCapacity > ASGMaxSize"
          else if v3.asgMaxSize > x.ngMaxLimit then
            .error "AddOnNodeGroups.ASGs ASGMaxSize > NGMaxLimit"
          else if v3.asgDesiredCapacity > x.ngMaxLimit then
            .error "AddOnNodeGroups.ASGs ASGDesiredCapacity > NGMaxLimit"
          else
            ngLoop x (setASGs (bumpReplicas cfg v3.asgDesiredCapacity) k (ngFillSSM v3))
              (v.name :: names) rest

/-- `(cfg *Config) validateAddOnNodeGroups()`. -/
def validateAddOnNodeGroups (x : Ext) (cfg : Config) : Except String Config :=
  if ¬ IsEnabledAddOnNodeGroups cfg then .ok cfg
  else
    let n := cfg.addOnNodeGroups.asgs.length
    if n = 0 then .error "empty ASGs"
    else if (n : Int) > x.ngsMaxLimit then .error "NGs exceeds maximum number of NGs"
    else if cfg.parameters.versionValue < mkRat 114 100 then
      .error "Version not supported for AddOnNodeGroups"
    else
      let cfg :=
        if cfg.addOnNodeGroups.logsDir = "" then
          { cfg with addOnNodeGroups :=
              { cfg.addOnNodeGroups with
                logsDir := (joinPath (dirPath cfg.configPath) (cfg.name ++ "-logs-ngs")) } }
        else cfg
      thenE (ngRoleStep cfg) fun cfg =>
        ngLoop x cfg [] cfg.addOnNodeGroups.asgs

/-- The role switch of `validateAddOnManagedNodeGroups`. -/
def mngRoleStep (cfg : Config) : Except String Config :=
  if cfg.addOnManagedNodeGroups.roleCreate then
    let cfg :=
      if cfg.addOnManagedNodeGroups.roleName = "" then
        { cfg with addOnManagedNodeGroups :=
            { cfg.addOnManagedNodeGroups with roleName := cfg.name ++ "-role-mng" } }
      else cfg
    if cfg.addOnManagedNodeGroups.roleServicePrincipals.length > 0 ∧
        ¬ cfg.addOnManagedNodeGroups.roleServicePrincipals.contains "ec2.amazonaws.com" then
      .error "AddOnManagedNodeGroups.RoleServicePrincipals must include ec2.amazonaws.com"
    else .ok cfg
  else
    if cfg.addOnManagedNodeGroups.roleARN = "" then
      .error "AddOnManagedNodeGroups.RoleCreate false; expect non-empty RoleARN"
    else
      let cfg :=
        if cfg.addOnManagedNodeGroups.roleName = "" then
          { cfg with addOnManagedNodeGroups :=
              { cfg.addOnManagedNodeGroups with
                roleName := getNameFromARN cfg.addOnManagedNodeGroups.roleARN } }
        else cfg
      if cfg.addOnManagedNodeGroups.roleManagedPolicyARNs.length > 0 then
        .error "AddOnManagedNodeGroups.RoleCreate false; expect empty RoleManagedPolicyARNs"
      else if cfg.addOnManagedNodeGroups.roleServicePrincipals.length > 0 then
        .error "AddOnManagedNodeGroups.RoleCreate false; expect empty RoleServicePrincipals"
      else .ok cfg

/-- The first `switch v.AMIType` of the MNG loop body (no BottleRocket
case for managed node groups). -/
def mngUserCheck (v : MNG) : Except String MNG :=
  if v.amiType = AMITypesAl2X8664 then
    if v.remoteAccessUserName ≠ "ec2-user" then .error "unexpected RemoteAccessUserName"
    else .ok v
  else if v.amiType = AMITypesAl2X8664Gpu then
    if v.remoteAccessUserName ≠ "ec2-user" then .error "unexpected RemoteAccessUserName"
    else .ok v
  else .error "unknown ASGs AMIType"

/-- The second `switch v.AMIType` of the MNG loop body. -/
def mngInstanceFill (x : Ext) (v : MNG) : Except String MNG :=
  if v.amiType = AMITypesAl2X8664 then
    .ok (if v.instanceTypes.length = 0 then
        { v with instanceTypes := [x.defaultNodeInstanceTypeCPU] }
      else v)
  else if v.amiType = AMITypesAl2X8664Gpu then
    .ok (if v.instanceTypes.length = 0 then
        { v with instanceTypes := [x.defaultNodeInstanceTypeGPU] }
      else v)
  else .error "unknown AddOnManagedNodeGroups.MNGs AMIType"

/-- The VolumeSize / RemoteAccessUserName defaulting at the top of the
MNG loop body (the user-name defaulting appears twice in the source;
the duplicate is kept). -/
def mngFillVolumeUser (x : Ext) (v : MNG) : MNG :=
  let v := if v.volumeSize = 0 then { v with volumeSize := x.defaultNodeVolumeSize } else v
  let v := if v.remoteAccessUserName = "" then { v with remoteAccessUserName := "ec2-user" } else v
  if v.remoteAccessUserName = "" then { v with remoteAccessUserName := "ec2-user" } else v

/-- `cfg.AddOnManagedNodeGroups.MNGs[k] = v`. -/
def setMNGs (cfg : Config) (k : String) (v : MNG) : Config :=
  { cfg with addOnManagedNodeGroups :=
      { cfg.addOnManagedNodeGroups with mngs := assocSet cfg.addOnManagedNodeGroups.mngs k v } }

/-- The `for k, v := range cfg.AddOnManagedNodeGroups.MNGs` loop of
`validateAddOnManagedNodeGroups`. -/
def mngLoop (x : Ext) (cfg : Config) (names : List String) :
    List (String × MNG) → Except String Config
  | [] => .ok cfg
  | (k, v) :: rest =>
    if v.name = "" then .error "AddOnManagedNodeGroups.MNGs Name is empty"
    else if k ≠ v.name then .error "AddOnManagedNodeGroups.MNGs Name has different Name field"
    else if names.contains v.name then .error "AddOnManagedNodeGroups.MNGs Name is redundant"
    else if IsEnabledAddOnNodeGroups cfg ∧ assocHas cfg.addOnNodeGroups.asgs v.name then
      .error "MNGs name is conflicting with NG ASG"
    else if v.instanceTypes.length > 4 then .error "too many InstaceTypes"
    else
      match mngUserCheck (mngFillVolumeUser x v) with
      | .error e => .error e
      | .ok v2 =>
        match mngInstanceFill x v2 with
        | .error e => .error e
        | .ok v3 =>
          if oldInstanceCheck cfg v3.instanceTypes then
            .error "older instance type for NLB/ALB"
          else if v3.asgMinSize > v3.asgMaxSize then
            .error "AddOnManagedNodeGroups.MNGs ASGMinSize > ASGMaxSize"
          else if v3.asgDesiredCapacity > v3.asgMaxSize then
            .error "AddOnManagedNodeGroups.MNGs ASGDesiredCapacity > ASGMaxSize"
          else if v3.asgMaxSize > x.mngMaxLimit then
            .error "AddOnManagedNodeGroups.MNGs ASGMaxSize > MNGMaxLimit"
          else if v3.asgDesiredCapacity > x.mngMaxLimit then
            .error "AddOnManagedNodeGroups.MNGs ASGDesiredCapacity > MNGMaxLimit"
          else
            mngLoop x (setMNGs (bumpReplicas cfg v3.asgDesiredCapacity) k v3)
              (v.name :: names) rest

/-- `(cfg *Config) validateAddOnManagedNodeGroups()`. -/
def validateAddOnManagedNodeGroups (x : Ext) (cfg : Config) : Except String Config :=
  if ¬ IsEnabledAddOnManagedNodeGroups cfg then .ok cfg
  else
    let n := cfg.addOnManagedNodeGroups.mngs.length
    if n = 0 then .error "empty MNGs"
    else if (n : Int) > x.mngsMaxLimit then .error "MNGs exceeds maximum number of MNGs"
    else if cfg.parameters.versionValue < mkRat 114 100 then
      .error "Version not supported for AddOnManagedNodeGroups"
    else
      let cfg :=
        if cfg.addOnManagedNodeGroups.logsDir = "" then
          { cfg with addOnManagedNodeGroups :=
              { cfg.addOnManagedNodeGroups with
                logsDir := (joinPath (dirPath cfg.configPath) (cfg.name ++ "-logs-mngs")) } }
        else cfg
      thenE (mngRoleStep cfg) fun cfg =>
        mngLoop x cfg [] cfg.addOnManagedNodeGroups.mngs

/-- `(cfg *Config) validateAddOnNLBHelloWorld()`. -/
def validateAddOnNLBHelloWorld (cfg : Config) : Except String Config :=
  if ¬ IsEnabledAddOnNLBHelloWorld cfg then .ok cfg
  else if ¬ IsEnabledAddOnNodeGroups cfg ∧ ¬ IsEnabledAddOnManagedNodeGroups cfg then
    .error "AddOnNLBHelloWorld.Enable true but no node group is enabled"
  else
    .ok (if cfg.addOnNLBHelloWorld.«namespace» = "" then
        { cfg with addOnNLBHelloWorld :=
            { cfg.addOnNLBHelloWorld with «namespace» := cfg.name ++ "-nlb-hello-world" } }
      else cfg)

/-- `(cfg *Config) validateAddOnALB2048()`. -/
def validateAddOnALB2048 (cfg : Config) : Except String Config :=
  if ¬ IsEnabledAddOnALB2048 cfg then .ok cfg
  else if ¬ IsEnabledAddOnNodeGroups cfg ∧ ¬ IsEnabledAddOnManagedNodeGroups cfg then
    .error "AddOnALB2048.Enable true but no node group is enabled"
  else
    .ok (if cfg.addOnALB2048.«namespace» = "" then
        { cfg with addOnALB2048 :=
            { cfg.addOnALB2048 with «namespace» := cfg.name ++ "-alb-2048" } }
      else cfg)

/-- `(cfg *Config) validateAddOnJobPi()`. -/
def validateAddOnJobPi (cfg : Config) : Except String Config :=
  if ¬ IsEnabledAddOnJobPi cfg then .ok cfg
  else if ¬ IsEnabledAddOnNodeGroups cfg ∧ ¬ IsEnabledAddOnManagedNodeGroups cfg then
    .error "AddOnJobPi.Enable true but no node group is enabled"
  else
    .ok (if cfg.addOnJobPi.«namespace» = "" then
        { cfg with addOnJobPi :=
            { cfg.addOnJobPi with «namespace» := cfg.name ++ "-job-perl" } }
      else cfg)

/-- `(cfg *Config) validateAddOnJobEcho()`: after the node-group check
and namespace default, an `EchoSize` above 250000 bytes (0.25 MB) is
rejected. -/
def validateAddOnJobEcho (cfg : Config) : Except String Config :=
  if ¬ IsEnabledAddOnJobEcho cfg then .ok cfg
  else if ¬ IsEnabledAddOnNodeGroups cfg ∧ ¬ IsEnabledAddOnManagedNodeGroups cfg then
    .error "AddOnJobEcho.Enable true but no node group is enabled"
  else
    let cfg :=
      if cfg.addOnJobEcho.«namespace» = "" then
        { cfg with addOnJobEcho :=
            { cfg.addOnJobEcho with «namespace» := cfg.name ++ "-job-echo" } }
      else cfg
    if cfg.addOnJobEcho.echoSize > 250000 then .error "echo size limit is 0.25 MB"
    else .ok cfg

/-- `(cfg *Config) validateAddOnCronJob()`: same echo-size limit as the
echo job. -/
def validateAddOnCronJob (cfg : Config) : Except String Config :=
  if ¬ IsEnabledAddOnCronJob cfg then .ok cfg
  else if ¬ IsEnabledAddOnNodeGroups cfg ∧ ¬ IsEnabledAddOnManagedNodeGroups cfg then
    .error "AddOnCronJob.Enable true but no node group is enabled"
  else
    let cfg :=
      if cfg.addOnCronJob.«namespace» = "" then
        { cfg with addOnCronJob :=
            { cfg.addOnCronJob with «namespace» := cfg.name ++ "-cronjob" } }
      else cfg
    if cfg.addOnCronJob.echoSize > 250000 then .error "echo size limit is 0.25 MB"
    else .ok cfg

/-- The namespace / WritesResultPath defaulting of
`validateAddOnSecrets` (reads only the cluster name and config path,
which the statements do not modify). -/
def fillSecretsWrites (name configPath : String) (a : AddOnSecrets) : AddOnSecrets :=
  let a := if a.«namespace» = "" then { a with «namespace» := name ++ "-secrets" } else a
  if a.writesResultPath = "" then
    { a with writesResultPath := (joinPath (dirPath configPath) (name ++ "-secret-writes.csv")) }
  else a

/-- The ReadsResultPath defaulting of `validateAddOnSecrets`. -/
def fillSecretsReads (name configPath : String) (a : AddOnSecrets) : AddOnSecrets :=
  if a.readsResultPath = "" then
    { a with readsResultPath := (joinPath (dirPath configPath) (name ++ "-secret-reads.csv")) }
  else a

/-- `(cfg *Config) validateAddOnSecrets()`. -/
def validateAddOnSecrets (cfg : Config) : Except String Config :=
  if ¬ IsEnabledAddOnSecrets cfg then .ok cfg
  else if ¬ IsEnabledAddOnNodeGroups cfg ∧ ¬ IsEnabledAddOnManagedNodeGroups cfg then
    .error "AddOnSecrets.Enable true but no node group is enabled"
  else
    let a := fillSecretsWrites cfg.name cfg.configPath cfg.addOnSecrets
    if filepathExt a.writesResultPath ≠ ".csv" then
      .error "expected .csv extension for WritesResultPath"
    else
      let a := fillSecretsReads cfg.name cfg.configPath a
      if filepathExt a.readsResultPath ≠ ".csv" then
        .error "expected .csv extension for ReadsResultPath"
      else .ok { cfg with addOnSecrets := a }

/-- `validateAddOnIRSA`: namespace defaulting. -/
def fillIRSANamespace (name : String) (a : AddOnIRSA) : AddOnIRSA :=
  if a.«namespace» = "" then { a with «namespace» := name ++ "-irsa" } else a

/-- `validateAddOnIRSA`: RoleName defaulting. -/
def fillIRSARoleName (name : String) (a : AddOnIRSA) : AddOnIRSA :=
  if a.roleName = "" then { a with roleName := name ++ "-role-irsa" } else a

/-- `validateAddOnIRSA`: ServiceAccountName defaulting. -/
def fillIRSAServiceAccount (name : String) (a : AddOnIRSA) : AddOnIRSA :=
  if a.serviceAccountName = "" then
    { a with serviceAccountName := name ++ "-irsa-service-account" }
  else a

/-- `validateAddOnIRSA`: ConfigMapName defaulting. -/
def fillIRSAConfigMap (name : String) (a : AddOnIRSA) : AddOnIRSA :=
  if a.configMapName = "" then { a with configMapName := name ++ "-irsa-configmap" } else a

/-- `validateAddOnIRSA`: ConfigMapScriptFileName defaulting. -/
def fillIRSAConfigMapScript (name : String) (a : AddOnIRSA) : AddOnIRSA :=
  if a.configMapScriptFileName = "" then
    { a with configMapScriptFileName := name ++ "-irsa-configmap.sh" }
  else a

/-- `validateAddOnIRSA`: S3Key defaulting. -/
def fillIRSAS3Key (name : String) (a : AddOnIRSA) : AddOnIRSA :=
  if a.s3Key = "" then { a with s3Key := (joinPath name "irsa-s3-key") } else a

/-- `validateAddOnIRSA`: DeploymentName defaulting. -/
def fillIRSADeploymentName (name : String) (a : AddOnIRSA) : AddOnIRSA :=
  if a.deploymentName = "" then { a with deploymentName := name ++ "-irsa-deployment" } else a

/-- `validateAddOnIRSA`: DeploymentResultPath defaulting. -/
def fillIRSADeploymentResultPath (name configPath : String) (a : AddOnIRSA) : AddOnIRSA :=
  if a.deploymentResultPath = "" then
    { a with deploymentResultPath :=
        (joinPath (dirPath configPath) (name ++ "-irsa-deployment-result.log")) }
  else a

/-- The defaulting statements of `validateAddOnIRSA`, in source order
(each reads only the cluster name and config path besides the add-on
itself). -/
def fillIRSADefaults (name configPath : String) (a : AddOnIRSA) : AddOnIRSA :=
  fillIRSADeploymentResultPath name configPath
    (fillIRSADeploymentName name
      (fillIRSAS3Key name
        (fillIRSAConfigMapScript name
          (fillIRSAConfigMap name
            (fillIRSAServiceAccount name
              (fillIRSARoleName name
                (fillIRSANamespace name a)))))))

/-- `(cfg *Config) validateAddOnIRSA()`. -/
def validateAddOnIRSA (cfg : Config) : Except String Config :=
  if ¬ IsEnabledAddOnIRSA cfg then .ok cfg
  else if ¬ IsEnabledAddOnNodeGroups cfg ∧ ¬ IsEnabledAddOnManagedNodeGroups cfg then
    .error "AddOnIRSA.Enable true but no node group is enabled"
  else if cfg.parameters.versionValue < mkRat 114 100 then .error "Version not supported for AddOnIRSA"
  else if cfg.s3BucketName = "" then
    .error "AddOnIRSA requires S3 bucket but S3BucketName empty"
  else .ok { cfg with addOnIRSA := fillIRSADefaults cfg.name cfg.configPath cfg.addOnIRSA }

/-- The role switch of `validateAddOnFargate`. -/
def fargateRoleStep (cfg : Config) : Except String Config :=
  if cfg.addOnFargate.roleCreate then
    .ok (if cfg.addOnFargate.roleName = "" then
        { cfg with addOnFargate :=
            { cfg.addOnFargate with roleName := cfg.name ++ "-role-fargate" } }
      else cfg)
  else
    if cfg.addOnFargate.roleARN = "" then
      .error "AddOnFargate.RoleCreate false; expect non-empty RoleARN"
    else
      let cfg :=
        if cfg.addOnFargate.roleName = "" then
          { cfg with addOnFargate :=
              { cfg.addOnFargate with roleName := getNameFromARN cfg.addOnFargate.roleARN } }
        else cfg
      if cfg.addOnFargate.roleManagedPolicyARNs.length > 0 then
        .error "AddOnFargate.RoleCreate false; expect empty RoleManagedPolicyARNs"
      else if cfg.addOnFargate.roleServicePrincipals.length > 0 then
        .error "AddOnFargate.RoleCreate false; expect empty RoleServicePrincipals"
      else .ok cfg

/-- The name defaulting of `validateAddOnFargate`, followed by the
secret-name normalization: every non-alphanumeric run is removed by
`secretRegex` and the rest lower-cased (on the alphanumeric-only
remainder `strings.ToLower` is the per-character ASCII lowering). -/
def fillFargateNames (name rand : String) (a : AddOnFargate) : AddOnFargate :=
  let a := if a.«namespace» = "" then { a with «namespace» := name ++ "-fargate" } else a
  let a := if a.profileName = "" then { a with profileName := name ++ "-fargate-profile" } else a
  let a := if a.secretName = "" then { a with secretName := name ++ "addonfargatesecret" } else a
  let a := if a.podName = "" then { a with podName := name ++ "-fargate-pod" } else a
  let a := if a.containerName = "" then { a with containerName := name ++ "-" ++ rand } else a
  { a with secretName := (goToLower (secretRegexReplaceAll a.secretName)) }

/-- `(cfg *Config) validateAddOnFargate()`. -/
def validateAddOnFargate (x : Ext) (cfg : Config) : Except String Config :=
  if ¬ IsEnabledAddOnFargate cfg then .ok cfg
  else if ¬ IsEnabledAddOnNodeGroups cfg ∧ ¬ IsEnabledAddOnManagedNodeGroups cfg then
    .error "AddOnFargate.Enable true but no node group is enabled"
  else if cfg.parameters.versionValue < mkRat 114 100 then
    .error "Version not supported for AddOnFargate"
  else
    fargateRoleStep
      { cfg with addOnFargate := fillFargateNames cfg.name x.rand10 cfg.addOnFargate }

/-- `(cfg *Config) validateAddOnAppMesh()`. -/
def validateAddOnAppMesh (cfg : Config) : Except String Config :=
  if ¬ IsEnabledAddOnAppMesh cfg then .ok cfg
  else if ¬ IsEnabledAddOnNodeGroups cfg ∧ ¬ IsEnabledAddOnManagedNodeGroups cfg then
    .error "AddOnAppMesh.Enable true but no node group is enabled"
  else
    .ok (if cfg.addOnAppMesh.«namespace» = "" then
        { cfg with addOnAppMesh :=
            { cfg.addOnAppMesh with «namespace» := "appmesh-system" } }
      else cfg)

/-- Wrap a validator's error with the `fmt.Errorf("<name> failed [%v]")`
tag used by `ValidateAndSetDefaults`. -/
def wrapE (tag : String) (r : Except String Config) : Except String Config :=
  match r with
  | .error e => .error (tag ++ " failed [" ++ e ++ "]")
  | .ok c => .ok c

/-- `(cfg *Config) ValidateAndSetDefaults()`: the thirteen validators in
order, stopping at the first failure (the mutex handling and the final
`unsafeSync` file write are I/O and not modelled). -/
def ValidateAndSetDefaults (x : Ext) (cfg : Config) : Except String Config :=
  thenE (wrapE "validateConfig" (validateConfig x cfg)) fun cfg =>
    thenE (wrapE "validateParameters" (validateParameters x cfg)) fun cfg =>
      thenE (wrapE "validateAddOnNodeGroups" (validateAddOnNodeGroups x cfg)) fun cfg =>
        thenE (wrapE "validateAddOnManagedNodeGroups"
            (validateAddOnManagedNodeGroups x cfg)) fun cfg =>
          thenE (wrapE "validateAddOnNLBHelloWorld" (validateAddOnNLBHelloWorld cfg)) fun cfg =>
            thenE (wrapE "validateAddOnALB2048" (validateAddOnALB2048 cfg)) fun cfg =>
              thenE (wrapE "validateAddOnJobPi" (validateAddOnJobPi cfg)) fun cfg =>
                thenE (wrapE "validateAddOnJobEcho" (validateAddOnJobEcho cfg)) fun cfg =>
                  thenE (wrapE "validateAddOnCronJob" (validateAddOnCronJob cfg)) fun cfg =>
                    thenE (wrapE "validateAddOnSecrets" (validateAddOnSecrets cfg)) fun cfg =>
                      thenE (wrapE "validateAddOnIRSA" (validateAddOnIRSA cfg)) fun cfg =>
                        thenE (wrapE "validateAddOnFargate"
                            (validateAddOnFargate x cfg)) fun cfg =>
                          wrapE "validateAddOnAppMesh" (validateAddOnAppMesh cfg)

/-!
Part 4 models `UpdateFromEnvs` / `parseEnvs` (eksconfig/env.go). The
reflection over struct fields is embedded as a list of field
descriptors (json tag, read-only tag, Go field name, current value);
the environment and the parsers that need external semantics
(`strconv.ParseFloat`, `json.Unmarshal`, the zeroing of read-only ASG/MNG
string subfields whose tags live outside the provided sources) are an
oracle. -/

/-- The value of a struct field, by the kinds `parseEnvs` switches on. -/
inductive GoValue where
  | str (s : String)
  | boolean (b : Bool)
  | int64 (i : Int)
  | uint64 (n : Nat)
  | float64 (q : ℚ)
  | strSlice (l : List String)
  | tags (m : List (String × String))
  | asgs (m : List (String × ASG))
  | mngs (m : List (String × MNG))
deriving DecidableEq, Repr

/-- One struct field as seen by the reflection loop of `parseEnvs`. -/
structure EnvField where
  jsonTag : String
  readOnly : Bool
  fieldName : String
  value : GoValue
deriving DecidableEq, Repr

/-- Oracle for `parseEnvs`: the process environment (`""` = unset),
`strconv.ParseFloat` (as ℚ), `json.Unmarshal` into the ASG/MNG maps, and
the zeroing of their read-only string subfields (whose struct tags are
declared outside the provided sources). -/
structure GoEnv where
  getenv : String → String
  parseFloat : String → Option ℚ
  unmarshalASGs : String → Option (List (String × ASG))
  unmarshalMNGs : String → Option (List (String × MNG))
  zeroReadOnlyASG : ASG → ASG
  zeroReadOnlyMNG : MNG → MNG

/-- The environment-variable key for a json tag: strip `,omitempty`,
replace `-` with `_`, upper-case, and prepend the prefix. -/
def envKey (pfx jv : String) : String :=
  pfx ++ goToUpper (replaceAll (replaceAll jv ",omitempty" "") "-" "_")

/-- `strconv.ParseBool`. -/
def parseBool (s : String) : Option Bool :=
  if s = "1" ∨ s = "t" ∨ s = "T" ∨ s = "true" ∨ s = "TRUE" ∨ s = "True" then some true
  else if s = "0" ∨ s = "f" ∨ s = "F" ∨ s = "false" ∨ s = "FALSE" ∨ s = "False" then some false
  else none

/-- Decimal digit run to a natural number (`none` when empty or
non-digit characters appear). -/
def parseDigits : List Char → Option Nat
  | [] => none
  | cs =>
    cs.foldl (fun acc c =>
      match acc with
      | none => none
      | some n => if '0' ≤ c ∧ c ≤ '9' then some (n * 10 + (c.toNat - '0'.toNat)) else none)
      (some 0)

/-- `strconv.ParseInt(s, 10, 64)`: optional sign, digits, int64 range. -/
def parseInt64 (s : String) : Option Int :=
  let core : Option Int :=
    match s.data with
    | '+' :: rest => (parseDigits rest).map (Int.ofNat)
    | '-' :: rest => (parseDigits rest).map (fun n => -(n : Int))
    | cs => (parseDigits cs).map (Int.ofNat)
  match core with
  | none => none
  | some i => if -(2 ^ 63) ≤ i ∧ i ≤ 2 ^ 63 - 1 then some i else none

/-- `strconv.ParseUint(s, 10, 64)`: digits only, uint64 range. -/
def parseUint64 (s : String) : Option Nat :=
  match parseDigits s.data with
  | none => none
  | some n => if n ≤ 2 ^ 64 - 1 then some n else none

/-- The `Tags` map branch: split on `;`, each pair on `=`, requiring
exactly two parts, inserting into a fresh map. -/
def parseTags (sv : String) : Option (List (String × String)) :=
  (sv.splitOn ";").foldl (fun acc pair =>
    match acc with
    | none => none
    | some m =>
      let fields := pair.splitOn "="
      if fields.length ≠ 2 then none
      else some ((fields.headD "", fields.getLastD "") :: m))
    (some [])

/-- The body of the `parseEnvs` field loop for one field: skip fields
without a json tag, with an unset/empty variable, or tagged read-only;
otherwise parse `sv` according to the field kind and set the field. -/
def updateField (env : GoEnv) (pfx : String) (f : EnvField) : Except String EnvField :=
  if f.jsonTag = "" then .ok f
  else
    let sv := env.getenv (envKey pfx f.jsonTag)
    if sv = "" then .ok f
    else if f.readOnly then .ok f
    else
      match f.value with
      | .str _ => .ok { f with value := .str sv }
      | .boolean _ =>
        match parseBool sv with
        | some b => .ok { f with value := .boolean b }
        | none => .error "failed to parse bool"
      | .int64 _ =>
        match parseInt64 sv with
        | some i => .ok { f with value := .int64 i }
        | none => .error "failed to parse int"
      | .uint64 _ =>
        match parseUint64 sv with
        | some n => .ok { f with value := .uint64 n }
        | none => .error "failed to parse uint"
      | .float64 _ =>
        match env.parseFloat sv with
        | some q => .ok { f with value := .float64 q }
        | none => .error "failed to parse float"
      | .strSlice _ =>
        let ss := sv.splitOn ","
        if ss.length < 1 then .ok f else .ok { f with value := .strSlice ss }
      | .tags _ =>
        match parseTags sv with
        | some m => .ok { f with value := .tags m }
        | none => .error "map has unexpected format"
      | .asgs _ =>
        match env.unmarshalASGs sv with
        | some m => .ok { f with value := .asgs (m.map fun kv => (kv.1, env.zeroReadOnlyASG kv.2)) }
        | none => .error "failed to parse ASGs"
      | .mngs _ =>
        match env.unmarshalMNGs sv with
        | some m => .ok { f with value := .mngs (m.map fun kv => (kv.1, env.zeroReadOnlyMNG kv.2)) }
        | none => .error "failed to parse MNGs"

/-- `parseEnvs`: walk the struct fields in order, mutating in place;
on a parse error the failing and remaining fields keep their values and
the error is returned. -/
def parseEnvs (env : GoEnv) (pfx : String) : List EnvField → List EnvField × Option String
  | [] => ([], none)
  | f :: rest =>
    match updateField env pfx f with
    | .error e => (f :: rest, some e)
    | .ok f2 =>
      let k := parseEnvs env pfx rest
      (f2 :: k.1, k.2)

/-- `UpdateFromEnvs`: apply `parseEnvs` to each (prefix, struct) section
in order — Config, Parameters, then each add-on — stopping at the first
error (later sections keep their values). -/
def UpdateFromEnvs (env : GoEnv) :
    List (String × List EnvField) → List (String × List EnvField) × Option String
  | [] => ([], none)
  | (pfx, fs) :: rest =>
    let k := parseEnvs env pfx fs
    match k.2 with
    | some e => ((pfx, k.1) :: rest, some e)
    | none =>
      let r := UpdateFromEnvs env rest
      ((pfx, k.1) :: r.1, r.2)

/-!
Theorems about the validation chain (claims C3, C4, C5, C6). The frame
lemmas show that each validator preserves the projections the later
claims read: the enables/echo sizes/name (`enFrame`), the fargate
secret name, and the output-path fields (`pathFrame`). -/

/-- The fields every validator leaves untouched: the cluster name, the
add-on enable flags and the echo sizes. -/
def enFrame (cfg : Config) :=
  (cfg.name, cfg.addOnNodeGroups.enable, cfg.addOnManagedNodeGroups.enable,
   cfg.addOnNLBHelloWorld.enable, cfg.addOnALB2048.enable, cfg.addOnJobPi.enable,
   cfg.addOnJobEcho.enable, cfg.addOnCronJob.enable, cfg.addOnSecrets.enable,
   cfg.addOnIRSA.enable, cfg.addOnFargate.enable, cfg.addOnAppMesh.enable,
   cfg.addOnJobEcho.echoSize, cfg.addOnCronJob.echoSize)

/-- The output-path fields validateConfig derives; untouched by every
later validator. -/
def pathFrame (cfg : Config) :=
  (cfg.configPath, cfg.kubeConfigPath, cfg.kubectlCommandsOutputPath,
   cfg.remoteAccessCommandsOutputPath, cfg.commandAfterCreateClusterOutputPath,
   cfg.commandAfterCreateAddOnsOutputPath)

/-- `enFrame` plus the fargate secret name. -/
def auxFrame (cfg : Config) := (enFrame cfg, cfg.addOnFargate.secretName)

/-- `auxFrame` plus `pathFrame`. -/
def stdFrame (cfg : Config) := (auxFrame cfg, pathFrame cfg)

/-- `enFrame` plus `pathFrame`: the projections `validateAddOnFargate`
preserves (the secret name it rewrites). -/
def fgFrame (cfg : Config) := (enFrame cfg, pathFrame cfg)

/-- Whether an `Except` result is an error. -/
def resultIsError {α : Type} : Except String α → Bool
  | .error _ => true
  | .ok _ => false

/-- Concrete environment oracle used by the witnesses. -/
def extW : Ext where
  regionFound := fun r => r = "us-west-2"
  getwd := some "/home/test"
  tempDir := "/tmp"
  mkdirAll := fun _ => true
  abs := fun s => some s
  lookPath := fun s => some s
  fileExist := fun _ => true
  parseFloat := fun s => if s = "1.15" then some (mkRat 23 20) else none
  goos := "linux"
  rand10 := "abcdefghij"
  ngsMaxLimit := 10
  ngMaxLimit := 300
  mngsMaxLimit := 10
  mngMaxLimit := 100
  defaultNodeVolumeSize := 40
  defaultNodeInstanceTypeCPU := "c5.xlarge"
  defaultNodeInstanceTypeGPU := "p3.8xlarge"
  amiTypeBottleRocketCPU := "BOTTLEROCKET_x86_64"

/-- A minimal concrete configuration on which the whole validation chain
succeeds; the witnesses below perturb it. -/
def cfgBase : Config where
  name := "abc"
  region := "us-west-2"
  configPath := "/tmp/abc.yaml"
  kubeConfigPath := ""
  kubectlCommandsOutputPath := ""
  remoteAccessCommandsOutputPath := ""
  commandAfterCreateCluster := ""
  commandAfterCreateClusterOutputPath := ""
  commandAfterCreateAddOns := ""
  commandAfterCreateAddOnsOutputPath := ""
  logOutputs := ["stderr"]
  kubectlDownloadURL := "https://example.com/linux/kubectl"
  s3BucketName := ""
  s3BucketCreate := false
  s3BucketLifecycleExpirationDays := 0
  remoteAccessKeyCreate := true
  remoteAccessKeyName := ""
  remoteAccessPrivateKeyPath := "/home/test/.ssh/key"
  parameters := {
    roleName := ""
    roleCreate := true
    roleARN := ""
    roleServicePrincipals := []
    roleManagedPolicyARNs := []
    vpcCreate := true
    vpcID := ""
    vpcCIDR := ""
    publicSubnetCIDR1 := ""
    publicSubnetCIDR2 := ""
    publicSubnetCIDR3 := ""
    privateSubnetCIDR1 := ""
    privateSubnetCIDR2 := ""
    version := "1.15"
    versionValue := 0
    encryptionCMKCreate := true
    encryptionCMKARN := "" }
  addOnNodeGroups := {
    enable := false
    roleName := ""
    roleCreate := true
    roleARN := ""
    roleServicePrincipals := []
    roleManagedPolicyARNs := []
    asgs := []
    logsDir := "" }
  addOnManagedNodeGroups := {
    enable := false
    roleName := ""
    roleCreate := true
    roleARN := ""
    roleServicePrincipals := []
    roleManagedPolicyARNs := []
    mngs := []
    logsDir := "" }
  addOnNLBHelloWorld := { enable := false, deploymentReplicas := 3, «namespace» := "" }
  addOnALB2048 := {
    enable := false
    deploymentReplicasALB := 3
    deploymentReplicas2048 := 3
    «namespace» := "" }
  addOnJobPi := { enable := false, «namespace» := "" }
  addOnJobEcho := { enable := false, «namespace» := "", echoSize := 102400 }
  addOnCronJob := { enable := false, «namespace» := "", echoSize := 102400 }
  addOnSecrets := { enable := false, «namespace» := "", writesResultPath := "", readsResultPath := "" }
  addOnIRSA := {
    enable := false
    «namespace» := ""
    roleName := ""
    serviceAccountName := ""
    configMapName := ""
    configMapScriptFileName := ""
    s3Key := ""
    deploymentName := ""
    deploymentResultPath := "" }
  addOnFargate := {
    enable := false
    «namespace» := ""
    roleName := ""
    roleCreate := true
    roleARN := ""
    roleServicePrincipals := []
    roleManagedPolicyARNs := []
    profileName := ""
    secretName := ""
    podName := ""
    containerName := "" }
  addOnAppMesh := { enable := false, «namespace» := "" }

/-- The value `validateConfig` leaves in LogOutputs. -/
def logOutputsSpec (configPath : String) (l : List String) : List String :=
  if l.length = 1 ∧ (l.headD "" = "stderr" ∨ l.headD "" = "stdout") then
    l ++ [configPath ++ ".log"]
  else l

/-- The value `validateConfig` leaves in KubectlCommandsOutputPath. -/
def kubectlSpec (configPath old : String) : String :=
  let v := if old = "" then replaceAll configPath ".yaml" "" ++ ".kubectl.sh" else old
  if filepathExt v ≠ ".sh" then v ++ ".sh" else v

/-- The value `validateConfig` leaves in RemoteAccessCommandsOutputPath. -/
def sshSpec (configPath old : String) : String :=
  let v := if old = "" then replaceAll configPath ".yaml" "" ++ ".ssh.sh" else old
  if filepathExt v ≠ ".sh" then v ++ ".sh" else v

/-- The value `validateConfig` leaves in CommandAfterCreateClusterOutputPath. -/
def afterClusterSpec (configPath old : String) : String :=
  let v := if old = "" then replaceAll configPath ".yaml" "" ++ ".after-create-cluster.out.log"
    else old
  if filepathExt v ≠ ".log" then v ++ ".log" else v

/-- The value `validateConfig` leaves in CommandAfterCreateAddOnsOutputPath. -/
def afterAddOnsSpec (configPath old : String) : String :=
  let v := if old = "" then replaceAll configPath ".yaml" "" ++ ".after-create-add-ons.out.log"
    else old
  if filepathExt v ≠ ".log" then v ++ ".log" else v

/-- The value `validateConfig` leaves in KubeConfigPath. -/
def kubeConfigSpec (configPath old : String) : String :=
  if old = "" then replaceAll configPath ".yaml" "" ++ ".kubeconfig.yaml" else old

/-- The configuration produced by the validation chain on `cfgBase`
(used by the witnesses). -/
def resW : Config :=
  match ValidateAndSetDefaults extW cfgBase with
  | .ok c => c
  | .error _ => cfgBase

/-- A node-group-enabled, fargate-enabled configuration for the
witnesses. -/
def cfgW5 : Config :=
  { cfgBase with
    addOnNodeGroups := { cfgBase.addOnNodeGroups with
      enable := true
      asgs := [("abc-ng",
        { name := "abc-ng", remoteAccessUserName := "", amiType := "AL2_x86_64",
          asgMinSize := 1, asgMaxSize := 1, asgDesiredCapacity := 1, instanceTypes := [],
          volumeSize := 0, ssmDocumentCreate := false, ssmDocumentName := "",
          ssmDocumentExecutionTimeoutSeconds := 0 })] }
    addOnFargate := { cfgBase.addOnFargate with enable := true, secretName := "My-Secret_01" } }

/-- The configuration produced by the validation chain on `cfgW5`. -/
def resW5 : Config :=
  match ValidateAndSetDefaults extW cfgW5 with
  | .ok c => c
  | .error _ => cfgW5

/-- An echo-job configuration over the 0.25 MB limit. -/
def cfgW6 : Config :=
  { cfgBase with addOnJobEcho := { enable := true, «namespace» := "", echoSize := 250001 } }

/-- An echo-job configuration within the limit, with node groups on. -/
def cfgW6b : Config :=
  { cfgW5 with addOnJobEcho := { enable := true, «namespace» := "", echoSize := 1000 } }

/-- A concrete environment for the C10 witness: only the read-only
Parameters.VersionValue variable is set. -/
def envW : GoEnv where
  getenv := fun k => if k = "AWS_K8S_TESTER_EKS_PARAMETERS_VERSION_VALUE" then "9.9" else ""
  parseFloat := fun _ => none
  unmarshalASGs := fun _ => none
  unmarshalMNGs := fun _ => none
  zeroReadOnlyASG := id
  zeroReadOnlyMNG := id

/-- The field list of the C10 witness: the read-only
`version-value` field of the Parameters section. -/
def fieldW : EnvField :=
  { jsonTag := "version-value", readOnly := true, fieldName := "VersionValue",
    value := .float64 0 }

theorem lastOfCons {α : Type} {l : List α} {v x : α} (h : l.getLast? = some v) :
    (x :: l).getLast? = some v := by
  cases l with
  | nil => simp at h
  | cons c l2 => rw [List.getLast?_cons_cons]; exact h

theorem pollGo_final (desired : String) (wait iw : Nat) :
    ∀ (steps : List PollStep) (waitDur : Nat) (first : Bool) (v : FargateProfileStatus),
      (pollGo desired wait iw steps waitDur first).2 = some v →
      (sentValues (pollGo desired wait iw steps waitDur first).1).getLast? = some v ∧
        FinalOK desired v := by
  intro steps
  induction steps with
  | nil => intro waitDur first v h; simp [pollGo] at h
  | cons step rest ih =>
    intro waitDur first v h
    cases step with
    | ctxCancel =>
      simp [pollGo] at h
      subst h
      refine ⟨by simp [pollGo, sentValues], ?_⟩
      simp [FinalOK]
    | stopFire =>
      simp [pollGo] at h
      subst h
      refine ⟨by simp [pollGo, sentValues], ?_⟩
      simp [FinalOK]
    | describe r initGate =>
      cases r with
      | err e =>
        by_cases hd : IsProfileDeleted (some e) = true
        · by_cases hq : desired = FargateProfileStatusDELETEDORNOTEXIST
          · simp [pollGo, hd, hq] at h
            subst h
            exact ⟨by simp [pollGo, sentValues, hd, hq], Or.inr (Or.inl ⟨rfl, hq⟩)⟩
          · simp [pollGo, hd, hq] at h
            subst h
            exact ⟨by simp [pollGo, sentValues, hd, hq],
              Or.inr (Or.inr (Or.inr (Or.inl ⟨e, rfl, hd, hq⟩)))⟩
        · simp [pollGo, hd] at h
          obtain ⟨h1, h2⟩ := ih _ _ v h
          refine ⟨?_, h2⟩
          simpa [pollGo, hd, sentValues] using lastOfCons h1
      | ok profile =>
        cases profile with
        | none =>
          simp [pollGo] at h
          obtain ⟨h1, h2⟩ := ih _ _ v h
          refine ⟨?_, h2⟩
          simpa [pollGo, sentValues] using lastOfCons h1
        | some p =>
          by_cases hs : awsStringValue p.status = desired
          · simp [pollGo, hs] at h
            subst h
            exact ⟨by simp [pollGo, sentValues, hs], Or.inl ⟨p, rfl, hs⟩⟩
          · by_cases hf : awsStringValue p.status = FargateProfileStatusCreateFailed ∨
                awsStringValue p.status = FargateProfileStatusDeleteFailed
            · simp [pollGo, hs, hf] at h
              subst h
              refine ⟨by simp [pollGo, sentValues, hs, hf], Or.inr (Or.inr (Or.inl ?_))⟩
              exact ⟨p, awsStringValue p.status, rfl, hf, hs, rfl⟩
            · cases first with
              | true =>
                cases initGate with
                | ctxDone =>
                  simp [pollGo, hs, hf] at h
                  subst h
                  refine ⟨by simp [pollGo, sentValues, hs, hf], ?_⟩
                  simp [FinalOK]
                | stopc =>
                  simp [pollGo, hs, hf] at h
                  subst h
                  refine ⟨by simp [pollGo, sentValues, hs, hf], ?_⟩
                  simp [FinalOK]
                | timer =>
                  simp [pollGo, hs, hf] at h
                  obtain ⟨h1, h2⟩ := ih _ _ v h
                  refine ⟨?_, h2⟩
                  simpa [pollGo, hs, hf, sentValues] using lastOfCons h1
              | false =>
                simp [pollGo, hs, hf] at h
                obtain ⟨h1, h2⟩ := ih _ _ v h
                refine ⟨?_, h2⟩
                simpa [pollGo, hs, hf, sentValues] using lastOfCons h1

/-- Claim C1 (counterexample): with desired status `"CREATE_FAILED"`, a
run that observes the profile in status `CREATE_FAILED` closes the
channel with a final value whose `Error` is nil — refuting the claim
clause that the final value has a non-nil `Error` whenever the observed
status is `CREATE_FAILED` or `DELETE_FAILED`. -/
theorem pollFinal_counterexample :
    (pollRun "CREATE_FAILED" 5 3
        [.describe (.ok (some ⟨some "CREATE_FAILED"⟩)) .timer]).2 =
      some ⟨some ⟨some "CREATE_FAILED"⟩, none⟩ ∧
    awsStringValue (some "CREATE_FAILED") = FargateProfileStatusCreateFailed := by
  exact ⟨rfl, rfl⟩

/-- Claim C1 (amended): whenever a run of `Poll` closes the channel, a
final value was sent (the last value sent), and that value has nil
`Error` exactly on the desired-status and not-found-while-deletion-
desired outcomes; it has non-nil `Error` on `CREATE_FAILED`/`DELETE_FAILED`
observations *other than the desired status*, on not-found while a
status other than `DELETED/NOT-EXIST` is desired, on context
cancellation and on the stop channel firing. -/
theorem pollFinal_characterization (desired : String) (wait iw : Nat)
    (steps : List PollStep) (v : FargateProfileStatus)
    (h : (pollRun desired wait iw steps).2 = some v) :
    (sentValues (pollRun desired wait iw steps).1).getLast? = some v ∧
      FinalOK desired v :=
  pollGo_final desired wait iw steps 0 true v h

/-- Witness for `pollFinal_characterization` at a concrete run. -/
theorem pollFinal_characterization_witness :
    (pollRun "ACTIVE" 5 3 [.describe (.ok (some ⟨some "ACTIVE"⟩)) .timer]).2 =
        some ⟨some ⟨some "ACTIVE"⟩, none⟩ ∧
      (sentValues (pollRun "ACTIVE" 5 3
          [.describe (.ok (some ⟨some "ACTIVE"⟩)) .timer]).1).getLast? =
        some ⟨some ⟨some "ACTIVE"⟩, none⟩ ∧
      FinalOK "ACTIVE" ⟨some ⟨some "ACTIVE"⟩, none⟩ := by
  refine ⟨rfl, ?_⟩
  have h := pollFinal_characterization "ACTIVE" 5 3
    [.describe (.ok (some ⟨some "ACTIVE"⟩)) .timer] ⟨some ⟨some "ACTIVE"⟩, none⟩ rfl
  exact h

theorem callDelays_state_steady (desired : String) (wait iw : Nat) :
    ∀ (steps : List PollStep) (acc : Nat),
      callDelays (pollGo desired wait iw steps wait false).1 acc = [] ∨
      ∃ tl, callDelays (pollGo desired wait iw steps wait false).1 acc =
          (acc + wait) :: tl ∧ ∀ d ∈ tl, d = wait := by
  intro steps
  induction steps with
  | nil => intro acc; left; simp [pollGo, callDelays]
  | cons step rest ih =>
    intro acc
    cases step with
    | ctxCancel => left; simp [pollGo, callDelays]
    | stopFire => left; simp [pollGo, callDelays]
    | describe r initGate =>
      cases r with
      | err e =>
        by_cases hd : IsProfileDeleted (some e) = true
        · by_cases hq : desired = FargateProfileStatusDELETEDORNOTEXIST
          · right; exact ⟨[], by simp [pollGo, hd, hq, callDelays], by simp⟩
          · right; exact ⟨[], by simp [pollGo, hd, hq, callDelays], by simp⟩
        · right
          rcases ih 0 with h0 | ⟨tl, h1, h2⟩
          · exact ⟨[], by simp [pollGo, hd, callDelays, h0], by simp⟩
          · refine ⟨wait :: tl, ?_, ?_⟩
            · simp [pollGo, hd, callDelays, h1]
            · intro d hdm
              rcases List.mem_cons.mp hdm with h | h
              · exact h
              · exact h2 d h
      | ok profile =>
        cases profile with
        | none =>
          right
          rcases ih 0 with h0 | ⟨tl, h1, h2⟩
          · exact ⟨[], by simp [pollGo, callDelays, h0], by simp⟩
          · refine ⟨wait :: tl, by simp [pollGo, callDelays, h1], ?_⟩
            intro d hdm
            rcases List.mem_cons.mp hdm with h | h
            · exact h
            · exact h2 d h
        | some p =>
          by_cases hs : awsStringValue p.status = desired
          · right; exact ⟨[], by simp [pollGo, hs, callDelays], by simp⟩
          · by_cases hf : awsStringValue p.status = FargateProfileStatusCreateFailed ∨
                awsStringValue p.status = FargateProfileStatusDeleteFailed
            · right; exact ⟨[], by simp [pollGo, hs, hf, callDelays], by simp⟩
            · right
              rcases ih 0 with h0 | ⟨tl, h1, h2⟩
              · exact ⟨[], by simp [pollGo, hs, hf, callDelays, h0], by simp⟩
              · refine ⟨wait :: tl, by simp [pollGo, hs, hf, callDelays, h1], ?_⟩
                intro d hdm
                rcases List.mem_cons.mp hdm with h | h
                · exact h
                · exact h2 d h

theorem tailOK_nil (wait iw : Nat) : TailOK wait iw [] := by
  constructor <;> simp [TailOK]

theorem tailOK_cons_wait {wait iw : Nat} {l : List Nat} (h : TailOK wait iw l) :
    TailOK wait iw (wait :: l) := by
  obtain ⟨h1, h2⟩ := h
  refine ⟨?_, ?_⟩
  · intro d hd
    rcases List.mem_cons.mp hd with h | h
    · exact Or.inl h
    · exact h1 d h
  · simpa [List.countP_cons] using h2

theorem countP_ne_zero_of_all {wait : Nat} {l : List Nat} (h : ∀ d ∈ l, d = wait) :
    l.countP (fun d => d != wait) = 0 := by
  rw [List.countP_eq_zero]
  intro a ha
  simp [h a ha]

theorem tailOK_of_all_wait {wait iw : Nat} {l : List Nat} (h : ∀ d ∈ l, d = wait) :
    TailOK wait iw l := by
  refine ⟨fun d hd => Or.inl (h d hd), ?_⟩
  simp [countP_ne_zero_of_all h]

theorem tailOK_iwwait_all {wait iw : Nat} {l : List Nat} (h : ∀ d ∈ l, d = wait) :
    TailOK wait iw ((iw + wait) :: l) := by
  refine ⟨?_, ?_⟩
  · intro d hd
    rcases List.mem_cons.mp hd with h1 | h1
    · exact Or.inr h1
    · exact Or.inl (h d h1)
  · simp [List.countP_cons, countP_ne_zero_of_all h]
    split <;> simp

theorem callDelays_state_first (desired : String) (wait iw : Nat) :
    ∀ (steps : List PollStep) (acc : Nat),
      callDelays (pollGo desired wait iw steps wait true).1 acc = [] ∨
      ∃ tl, callDelays (pollGo desired wait iw steps wait true).1 acc =
          (acc + wait) :: tl ∧ TailOK wait iw tl := by
  intro steps
  induction steps with
  | nil => intro acc; left; simp [pollGo, callDelays]
  | cons step rest ih =>
    intro acc
    cases step with
    | ctxCancel => left; simp [pollGo, callDelays]
    | stopFire => left; simp [pollGo, callDelays]
    | describe r initGate =>
      cases r with
      | err e =>
        by_cases hd : IsProfileDeleted (some e) = true
        · by_cases hq : desired = FargateProfileStatusDELETEDORNOTEXIST
          · right; exact ⟨[], by simp [pollGo, hd, hq, callDelays], tailOK_nil wait iw⟩
          · right; exact ⟨[], by simp [pollGo, hd, hq, callDelays], tailOK_nil wait iw⟩
        · right
          rcases ih 0 with h0 | ⟨tl, h1, h2⟩
          · exact ⟨[], by simp [pollGo, hd, callDelays, h0], tailOK_nil wait iw⟩
          · exact ⟨wait :: tl, by simp [pollGo, hd, callDelays, h1], tailOK_cons_wait h2⟩
      | ok profile =>
        cases profile with
        | none =>
          right
          rcases ih 0 with h0 | ⟨tl, h1, h2⟩
          · exact ⟨[], by simp [pollGo, callDelays, h0], tailOK_nil wait iw⟩
          · exact ⟨wait :: tl, by simp [pollGo, callDelays, h1], tailOK_cons_wait h2⟩
        | some p =>
          by_cases hs : awsStringValue p.status = desired
          · right; exact ⟨[], by simp [pollGo, hs, callDelays], tailOK_nil wait iw⟩
          · by_cases hf : awsStringValue p.status = FargateProfileStatusCreateFailed ∨
                awsStringValue p.status = FargateProfileStatusDeleteFailed
            · right; exact ⟨[], by simp [pollGo, hs, hf, callDelays], tailOK_nil wait iw⟩
            · cases initGate with
              | ctxDone =>
                right
                exact ⟨[], by simp [pollGo, hs, hf, callDelays], tailOK_nil wait iw⟩
              | stopc =>
                right
                exact ⟨[], by simp [pollGo, hs, hf, callDelays], tailOK_nil wait iw⟩
              | timer =>
                right
                rcases callDelays_state_steady desired wait iw rest iw with h0 | ⟨tl, h1, h2⟩
                · exact ⟨[], by simp [pollGo, hs, hf, callDelays, h0], tailOK_nil wait iw⟩
                · exact ⟨(iw + wait) :: tl, by simp [pollGo, hs, hf, callDelays, h1],
                    tailOK_iwwait_all h2⟩

theorem callDelays_run (desired : String) (wait iw : Nat) (steps : List PollStep) :
    callDelays (pollRun desired wait iw steps).1 0 = [] ∨
    ∃ tl, callDelays (pollRun desired wait iw steps).1 0 = 0 :: tl ∧ TailOK wait iw tl := by
  cases steps with
  | nil => left; simp [pollRun, pollGo, callDelays]
  | cons step rest =>
    cases step with
    | ctxCancel => left; simp [pollRun, pollGo, callDelays]
    | stopFire => left; simp [pollRun, pollGo, callDelays]
    | describe r initGate =>
      cases r with
      | err e =>
        by_cases hd : IsProfileDeleted (some e) = true
        · by_cases hq : desired = FargateProfileStatusDELETEDORNOTEXIST
          · right
            exact ⟨[], by simp [pollRun, pollGo, hd, hq, callDelays], tailOK_nil wait iw⟩
          · right
            exact ⟨[], by simp [pollRun, pollGo, hd, hq, callDelays], tailOK_nil wait iw⟩
        · right
          rcases callDelays_state_first desired wait iw rest 0 with h0 | ⟨tl, h1, h2⟩
          · exact ⟨[], by simp [pollRun, pollGo, hd, callDelays, h0], tailOK_nil wait iw⟩
          · exact ⟨wait :: tl, by simp [pollRun, pollGo, hd, callDelays, h1], tailOK_cons_wait h2⟩
      | ok profile =>
        cases profile with
        | none =>
          right
          rcases callDelays_state_first desired wait iw rest 0 with h0 | ⟨tl, h1, h2⟩
          · exact ⟨[], by simp [pollRun, pollGo, callDelays, h0], tailOK_nil wait iw⟩
          · exact ⟨wait :: tl, by simp [pollRun, pollGo, callDelays, h1], tailOK_cons_wait h2⟩
        | some p =>
          by_cases hs : awsStringValue p.status = desired
          · right
            exact ⟨[], by simp [pollRun, pollGo, hs, callDelays], tailOK_nil wait iw⟩
          · by_cases hf : awsStringValue p.status = FargateProfileStatusCreateFailed ∨
                awsStringValue p.status = FargateProfileStatusDeleteFailed
            · right
              exact ⟨[], by simp [pollRun, pollGo, hs, hf, callDelays], tailOK_nil wait iw⟩
            · cases initGate with
              | ctxDone =>
                right
                exact ⟨[], by simp [pollRun, pollGo, hs, hf, callDelays], tailOK_nil wait iw⟩
              | stopc =>
                right
                exact ⟨[], by simp [pollRun, pollGo, hs, hf, callDelays], tailOK_nil wait iw⟩
              | timer =>
                right
                rcases callDelays_state_steady desired wait iw rest iw with h0 | ⟨tl, h1, h2⟩
                · exact ⟨[], by simp [pollRun, pollGo, hs, hf, callDelays, h0], tailOK_nil wait iw⟩
                · exact ⟨(iw + wait) :: tl, by simp [pollRun, pollGo, hs, hf, callDelays, h1],
                    tailOK_iwwait_all h2⟩

theorem pollGo_steady_unfold (desired : String) (wait iw : Nat) (p : FargateProfile)
    (hs : awsStringValue p.status ≠ desired)
    (hf : ¬(awsStringValue p.status = FargateProfileStatusCreateFailed ∨
        awsStringValue p.status = FargateProfileStatusDeleteFailed))
    (rest : List PollStep) (acc : Nat) :
    callDelays (pollGo desired wait iw
        (PollStep.describe (.ok (some p)) .timer :: rest) wait false).1 acc =
      (acc + wait) :: callDelays (pollGo desired wait iw rest wait false).1 0 := by
  simp [pollGo, hs, hf, callDelays]

theorem pollGo_first_unfold (desired : String) (wait iw : Nat) (p : FargateProfile)
    (hs : awsStringValue p.status ≠ desired)
    (hf : ¬(awsStringValue p.status = FargateProfileStatusCreateFailed ∨
        awsStringValue p.status = FargateProfileStatusDeleteFailed))
    (rest : List PollStep) (acc : Nat) :
    callDelays (pollGo desired wait iw
        (PollStep.describe (.ok (some p)) .timer :: rest) 0 true).1 acc =
      acc :: callDelays (pollGo desired wait iw rest wait false).1 iw := by
  simp [pollGo, hs, hf, callDelays]

theorem callDelays_clean_steady (desired : String) (wait iw : Nat) (p : FargateProfile)
    (hs : awsStringValue p.status ≠ desired)
    (hf : ¬(awsStringValue p.status = FargateProfileStatusCreateFailed ∨
        awsStringValue p.status = FargateProfileStatusDeleteFailed)) :
    ∀ (n acc : Nat),
      callDelays (pollGo desired wait iw
          (List.replicate (n + 1) (.describe (.ok (some p)) .timer)) wait false).1 acc =
        (acc + wait) :: List.replicate n wait := by
  intro n
  induction n with
  | zero => intro acc; simp [pollGo, hs, hf, callDelays]
  | succ m ih =>
    intro acc
    rw [List.replicate_succ, pollGo_steady_unfold desired wait iw p hs hf, ih 0]
    rw [List.replicate_succ]
    simp

/-- Claim C2: the inter-describe-call delays of any `Poll` run start at 0
(the very first call waits for nothing) and afterwards are always the
fixed `wait`, except for at most one delay of `wait + initialWait`; in
the failure-free polling run the delays are exactly
`0, initialWait + wait, wait, wait, ...` — a fixed-interval timer with
no exponential back-off. -/
theorem pollFixedInterval (desired : String) (wait iw : Nat) :
    (∀ steps : List PollStep,
      callDelays (pollRun desired wait iw steps).1 0 = [] ∨
      ∃ tl, callDelays (pollRun desired wait iw steps).1 0 = 0 :: tl ∧ TailOK wait iw tl) ∧
    (∀ (p : FargateProfile) (n : Nat),
      awsStringValue p.status ≠ desired →
      ¬(awsStringValue p.status = FargateProfileStatusCreateFailed ∨
        awsStringValue p.status = FargateProfileStatusDeleteFailed) →
      callDelays (pollRun desired wait iw
          (List.replicate (n + 2) (.describe (.ok (some p)) .timer))).1 0 =
        0 :: (iw + wait) :: List.replicate n wait) := by
  refine ⟨callDelays_run desired wait iw, ?_⟩
  intro p n hs hf
  have h := callDelays_clean_steady desired wait iw p hs hf n iw
  show callDelays (pollGo desired wait iw _ 0 true).1 0 = _
  rw [show n + 2 = (n + 1) + 1 from rfl, List.replicate_succ,
    pollGo_first_unfold desired wait iw p hs hf, h]

/-- Witness for `pollFixedInterval` at a concrete run (three successful
polls in `CREATING` state, wait 5, initialWait 3: delays 0, 8, 5). -/
theorem pollFixedInterval_witness :
    awsStringValue (FargateProfile.mk (some "CREATING")).status ≠ "ACTIVE" ∧
    callDelays (pollRun "ACTIVE" 5 3
        (List.replicate 3 (.describe (.ok (some ⟨some "CREATING"⟩)) .timer))).1 0 =
      [0, 8, 5] := by
  refine ⟨by decide, ?_⟩
  have h := (pollFixedInterval "ACTIVE" 5 3).2 ⟨some "CREATING"⟩ 1 (by decide) (by decide)
  simpa using h

/-- Claim C7: with `Created` false, `Create` runs its steps strictly in
the fixed order create-namespace, create-role, create-secret,
create-profile, create-pod, check-pod, check-node; it stops at the first
failing step and returns its error (no later step runs), and `Created`
is set to true regardless of failures. -/
theorem fargateCreate_order (o : FgOutcomes) :
    (fargateCreate o false).1 = true ∧
    (fargateCreate o false).2.2 <+: createOrder ∧
    (∀ i : Nat, i < 7 → (∀ j : Nat, j < i → createOutcomeAt o j = none) →
      ∀ e, createOutcomeAt o i = some e →
      fargateCreate o false = (true, some e, createOrder.take (i + 1))) ∧
    ((∀ j : Nat, j < 7 → createOutcomeAt o j = none) →
      fargateCreate o false = (true, o.syncErr, createOrder)) := by
  obtain ⟨a1, a2, a3, a4, a5, a6, a7, d1, d2, d3, d4, d5, sy⟩ := o
  refine ⟨?_, ?_, ?_, ?_⟩
  · cases a1 <;> cases a2 <;> cases a3 <;> cases a4 <;> cases a5 <;> cases a6 <;> cases a7 <;>
      simp [fargateCreate, createSeq, runSeq]
  · cases a1 <;> cases a2 <;> cases a3 <;> cases a4 <;> cases a5 <;> cases a6 <;> cases a7 <;>
      simp [fargateCreate, createSeq, runSeq, createOrder, List.IsPrefix]
  · intro i hi hj e he
    interval_cases i <;>
      [skip; (have h0 := hj 0 (by omega));
        (have h0 := hj 0 (by omega); have h1 := hj 1 (by omega));
        (have h0 := hj 0 (by omega); have h1 := hj 1 (by omega); have h2 := hj 2 (by omega));
        (have h0 := hj 0 (by omega); have h1 := hj 1 (by omega); have h2 := hj 2 (by omega);
          have h3 := hj 3 (by omega));
        (have h0 := hj 0 (by omega); have h1 := hj 1 (by omega); have h2 := hj 2 (by omega);
          have h3 := hj 3 (by omega); have h4 := hj 4 (by omega));
        (have h0 := hj 0 (by omega); have h1 := hj 1 (by omega); have h2 := hj 2 (by omega);
          have h3 := hj 3 (by omega); have h4 := hj 4 (by omega); have h5 := hj 5 (by omega))] <;>
      simp_all [createOutcomeAt, fargateCreate, createSeq, runSeq, createOrder]
  · intro hall
    have h0 := hall 0 (by omega); have h1 := hall 1 (by omega); have h2 := hall 2 (by omega)
    have h3 := hall 3 (by omega); have h4 := hall 4 (by omega); have h5 := hall 5 (by omega)
    have h6 := hall 6 (by omega)
    simp_all [createOutcomeAt, fargateCreate, createSeq, runSeq, createOrder]

/-- Witness for `fargateCreate_order`: the secret-creation step fails
and exactly the first three steps run. -/
theorem fargateCreate_order_witness :
    fargateCreate ⟨none, none, some "boom", none, none, none, none,
        none, none, none, none, none, none⟩ false =
      (true, some "boom", [.createNamespace, .createRole, .createSecret]) := by
  have h := (fargateCreate_order ⟨none, none, some "boom", none, none, none, none,
      none, none, none, none, none, none⟩).2.2.1 2 (by omega)
    (by intro j hj; interval_cases j <;> rfl) "boom" rfl
  simpa [createOrder] using h

/-- Claim C9: `Create` with `Created` already true, and `Delete` with
`Created` false, return nil without invoking any operation and leave
the flag unchanged. -/
theorem fargate_idempotent_flags (o : FgOutcomes) :
    fargateCreate o true = (true, none, []) ∧
    fargateDelete o false = (false, none, []) := by
  constructor <;> rfl

/-- Claim C8 (code bug): `Delete` collects the pod/profile/role deletion
errors into `errs` but never returns them. With `Created` true, a failing
pod deletion and everything else succeeding, `Delete` still deletes all
five resources, resets `Created` to false and returns nil — not the
non-nil error the claim requires. -/
theorem fargateDelete_drops_errs :
    fargateDelete ⟨none, none, none, none, none, none, none,
        some "pod deletion failed", none, none, none, none, none⟩ true =
      (false, none,
        [.deletePod, .deleteProfile, .deleteRole, .deleteSecret, .deleteNamespace]) := by
  rfl

theorem thenE_ok {r : Except String Config} {f : Config → Except String Config} {c : Config}
    (h : thenE r f = .ok c) : ∃ b, r = .ok b ∧ f b = .ok c := by
  cases r with
  | error e => simp [thenE] at h
  | ok b => exact ⟨b, rfl, h⟩

theorem wrapE_ok {t : String} {r : Except String Config} {c : Config}
    (h : wrapE t r = .ok c) : r = .ok c := by
  cases r with
  | error e => simp [wrapE] at h
  | ok b => exact h

theorem auxFrame_fillLogOutputs (cfg : Config) : auxFrame (fillLogOutputs cfg) = auxFrame cfg := by
  unfold fillLogOutputs; split <;> rfl

theorem auxFrame_fillKubectl (cfg : Config) :
    auxFrame (fillKubectlCommandsOutputPath cfg) = auxFrame cfg := by
  unfold fillKubectlCommandsOutputPath; split <;> (dsimp only; split <;> rfl)

theorem auxFrame_fillRemoteAccess (cfg : Config) :
    auxFrame (fillRemoteAccessCommandsOutputPath cfg) = auxFrame cfg := by
  unfold fillRemoteAccessCommandsOutputPath; split <;> (dsimp only; split <;> rfl)

theorem auxFrame_fillAfterCluster (cfg : Config) :
    auxFrame (fillCommandAfterCreateClusterOutputPath cfg) = auxFrame cfg := by
  unfold fillCommandAfterCreateClusterOutputPath; split <;> (dsimp only; split <;> rfl)

theorem auxFrame_fillAfterAddOns (cfg : Config) :
    auxFrame (fillCommandAfterCreateAddOnsOutputPath cfg) = auxFrame cfg := by
  unfold fillCommandAfterCreateAddOnsOutputPath; split <;> (dsimp only; split <;> rfl)

theorem auxFrame_fillKubeConfig (cfg : Config) :
    auxFrame (fillKubeConfigPath cfg) = auxFrame cfg := by
  unfold fillKubeConfigPath; split <;> rfl

theorem auxFrame_fillS3 (cfg : Config) : auxFrame (fillS3 cfg) = auxFrame cfg := by
  unfold fillS3
  dsimp only
  repeat' split
  all_goals rfl

theorem auxFrame_resolveConfigPath {x : Ext} {cfg c : Config}
    (h : resolveConfigPath x cfg = .ok c) : auxFrame c = auxFrame cfg := by
  unfold resolveConfigPath at h
  split at h
  · split at h
    · split at h
      · cases h; rfl
      · simp at h
    · dsimp only at h
      split at h
      · split at h
        · cases h; rfl
        · simp at h
      · simp at h
  · cases h; rfl

theorem checkBasics_ok {x : Ext} {cfg c : Config} (h : checkBasics x cfg = .ok c) : c = cfg := by
  unfold checkBasics at h
  split at h; · exact Except.noConfusion h
  split at h; · exact Except.noConfusion h
  split at h; · exact Except.noConfusion h
  split at h; · exact Except.noConfusion h
  cases h; rfl

theorem checkMkdirConfigDir_ok {x : Ext} {cfg c : Config}
    (h : checkMkdirConfigDir x cfg = .ok c) : c = cfg := by
  unfold checkMkdirConfigDir at h
  split at h; · exact Except.noConfusion h
  cases h; rfl

theorem checkKubectlURL_ok {x : Ext} {cfg c : Config}
    (h : checkKubectlURL x cfg = .ok c) : c = cfg := by
  unfold checkKubectlURL at h
  split at h; · exact Except.noConfusion h
  cases h; rfl

theorem resolveCommands_frame {x : Ext} {cfg c : Config}
    (h : resolveCommands x cfg = .ok c) : auxFrame c = auxFrame cfg ∧
      pathFrame c = pathFrame cfg := by
  unfold resolveCommands at h
  split at h; · exact Except.noConfusion h
  split at h; · exact Except.noConfusion h
  cases h; exact ⟨rfl, rfl⟩

theorem auxFrame_fillOutputPaths (cfg : Config) :
    auxFrame (fillOutputPaths cfg) = auxFrame cfg := by
  unfold fillOutputPaths
  rw [auxFrame_fillKubeConfig, auxFrame_fillAfterAddOns, auxFrame_fillAfterCluster,
    auxFrame_fillRemoteAccess, auxFrame_fillKubectl, auxFrame_fillLogOutputs]

theorem validateConfig_frame {x : Ext} {cfg c : Config}
    (h : validateConfig x cfg = .ok c) : auxFrame c = auxFrame cfg := by
  unfold validateConfig at h
  obtain ⟨b1, h1, h⟩ := thenE_ok h
  obtain ⟨b2, h2, h⟩ := thenE_ok h
  obtain ⟨b3, h3, h⟩ := thenE_ok h
  obtain ⟨b4, h4, h⟩ := thenE_ok h
  obtain ⟨b5, h5, h⟩ := thenE_ok h
  cases h
  rw [auxFrame_fillS3]
  rw [(resolveCommands_frame h5).1]
  rw [checkKubectlURL_ok h4, auxFrame_fillOutputPaths, checkMkdirConfigDir_ok h3,
    auxFrame_resolveConfigPath h2, checkBasics_ok h1]

theorem paramsRoleStep_frame {cfg c : Config} (h : paramsRoleStep cfg = .ok c) :
    stdFrame c = stdFrame cfg := by
  unfold paramsRoleStep at h
  repeat' ((try dsimp only at h); split at h <;> try exact Except.noConfusion h)
  all_goals cases h
  all_goals rfl

theorem paramsVPCStep_ok {cfg c : Config} (h : paramsVPCStep cfg = .ok c) : c = cfg := by
  unfold paramsVPCStep at h
  split at h
  · cases h; rfl
  · split at h; · exact Except.noConfusion h
    cases h; rfl

theorem paramsCIDRStep_ok {cfg c : Config} (h : paramsCIDRStep cfg = .ok c) : c = cfg := by
  unfold paramsCIDRStep at h
  split at h <;>
    (iterate 5 (split at h; · exact Except.noConfusion h)) <;> (cases h; rfl)

theorem paramsKeyStep_frame {x : Ext} {cfg c : Config} (h : paramsKeyStep x cfg = .ok c) :
    stdFrame c = stdFrame cfg := by
  unfold paramsKeyStep at h
  repeat' ((try dsimp only at h); split at h <;> try exact Except.noConfusion h)
  all_goals cases h
  all_goals rfl

theorem validateParameters_frame {x : Ext} {cfg c : Config}
    (h : validateParameters x cfg = .ok c) : stdFrame c = stdFrame cfg := by
  unfold validateParameters at h
  split at h; · exact Except.noConfusion h
  split at h; · exact Except.noConfusion h
  obtain ⟨b1, h1, h⟩ := thenE_ok h
  obtain ⟨b2, h2, h⟩ := thenE_ok h
  obtain ⟨b3, h3, h⟩ := thenE_ok h
  rw [paramsKeyStep_frame h, paramsCIDRStep_ok h3, paramsVPCStep_ok h2,
    paramsRoleStep_frame h1]
  rfl

theorem stdFrame_bumpReplicas (cfg : Config) (d : Int) :
    stdFrame (bumpReplicas cfg d) = stdFrame cfg := by
  unfold bumpReplicas
  dsimp only
  repeat' split
  all_goals rfl

theorem ngRoleStep_frame {cfg c : Config} (h : ngRoleStep cfg = .ok c) :
    stdFrame c = stdFrame cfg := by
  unfold ngRoleStep at h
  repeat' ((try dsimp only at h); split at h <;> try exact Except.noConfusion h)
  all_goals cases h
  all_goals rfl

theorem ngLoop_frame {x : Ext} :
    ∀ (l : List (String × ASG)) (cfg : Config) (names : List String) (c : Config),
      ngLoop x cfg names l = .ok c → stdFrame c = stdFrame cfg := by
  intro l
  induction l with
  | nil =>
    intro cfg names c h
    unfold ngLoop at h
    cases h; rfl
  | cons kv rest ih =>
    intro cfg names c h
    obtain ⟨k, v⟩ := kv
    unfold ngLoop at h
    split at h; · exact Except.noConfusion h
    split at h; · exact Except.noConfusion h
    split at h; · exact Except.noConfusion h
    split at h; · exact Except.noConfusion h
    split at h; · exact Except.noConfusion h
    split at h; · exact Except.noConfusion h
    split at h; · exact Except.noConfusion h
    split at h; · exact Except.noConfusion h
    split at h; · exact Except.noConfusion h
    split at h; · exact Except.noConfusion h
    split at h; · exact Except.noConfusion h
    rw [ih _ _ _ h]
    show stdFrame (bumpReplicas cfg _) = stdFrame cfg
    exact stdFrame_bumpReplicas cfg _

theorem validateAddOnNodeGroups_frame {x : Ext} {cfg c : Config}
    (h : validateAddOnNodeGroups x cfg = .ok c) : stdFrame c = stdFrame cfg := by
  unfold validateAddOnNodeGroups at h
  split at h
  · cases h; rfl
  · dsimp only at h
    split at h; · exact Except.noConfusion h
    split at h; · exact Except.noConfusion h
    split at h; · exact Except.noConfusion h
    obtain ⟨b1, h1, h⟩ := thenE_ok h
    rw [ngLoop_frame _ _ _ _ h, ngRoleStep_frame h1]
    split <;> rfl

theorem mngRoleStep_frame {cfg c : Config} (h : mngRoleStep cfg = .ok c) :
    stdFrame c = stdFrame cfg := by
  unfold mngRoleStep at h
  repeat' ((try dsimp only at h); split at h <;> try exact Except.noConfusion h)
  all_goals cases h
  all_goals rfl

theorem mngLoop_frame {x : Ext} :
    ∀ (l : List (String × MNG)) (cfg : Config) (names : List String) (c : Config),
      mngLoop x cfg names l = .ok c → stdFrame c = stdFrame cfg := by
  intro l
  induction l with
  | nil =>
    intro cfg names c h
    unfold mngLoop at h
    cases h; rfl
  | cons kv rest ih =>
    intro cfg names c h
    obtain ⟨k, v⟩ := kv
    unfold mngLoop at h
    split at h; · exact Except.noConfusion h
    split at h; · exact Except.noConfusion h
    split at h; · exact Except.noConfusion h
    split at h; · exact Except.noConfusion h
    split at h; · exact Except.noConfusion h
    split at h; · exact Except.noConfusion h
    split at h; · exact Except.noConfusion h
    split at h; · exact Except.noConfusion h
    split at h; · exact Except.noConfusion h
    split at h; · exact Except.noConfusion h
    split at h; · exact Except.noConfusion h
    split at h; · exact Except.noConfusion h
    rw [ih _ _ _ h]
    show stdFrame (bumpReplicas cfg _) = stdFrame cfg
    exact stdFrame_bumpReplicas cfg _

theorem validateAddOnManagedNodeGroups_frame {x : Ext} {cfg c : Config}
    (h : validateAddOnManagedNodeGroups x cfg = .ok c) : stdFrame c = stdFrame cfg := by
  unfold validateAddOnManagedNodeGroups at h
  split at h
  · cases h; rfl
  · dsimp only at h
    split at h; · exact Except.noConfusion h
    split at h; · exact Except.noConfusion h
    split at h; · exact Except.noConfusion h
    obtain ⟨b1, h1, h⟩ := thenE_ok h
    rw [mngLoop_frame _ _ _ _ h, mngRoleStep_frame h1]
    split <;> rfl

theorem validateAddOnNLBHelloWorld_frame {cfg c : Config}
    (h : validateAddOnNLBHelloWorld cfg = .ok c) : stdFrame c = stdFrame cfg := by
  unfold validateAddOnNLBHelloWorld at h
  split at h; · cases h; rfl
  split at h; · exact Except.noConfusion h
  cases h; split <;> rfl

theorem validateAddOnALB2048_frame {cfg c : Config}
    (h : validateAddOnALB2048 cfg = .ok c) : stdFrame c = stdFrame cfg := by
  unfold validateAddOnALB2048 at h
  split at h; · cases h; rfl
  split at h; · exact Except.noConfusion h
  cases h; split <;> rfl

theorem validateAddOnJobPi_frame {cfg c : Config}
    (h : validateAddOnJobPi cfg = .ok c) : stdFrame c = stdFrame cfg := by
  unfold validateAddOnJobPi at h
  split at h; · cases h; rfl
  split at h; · exact Except.noConfusion h
  cases h; split <;> rfl

theorem validateAddOnJobEcho_frame {cfg c : Config}
    (h : validateAddOnJobEcho cfg = .ok c) : stdFrame c = stdFrame cfg := by
  unfold validateAddOnJobEcho at h
  split at h; · cases h; rfl
  split at h; · exact Except.noConfusion h
  dsimp only at h
  repeat' (split at h <;> try exact Except.noConfusion h)
  all_goals cases h
  all_goals rfl

theorem validateAddOnCronJob_frame {cfg c : Config}
    (h : validateAddOnCronJob cfg = .ok c) : stdFrame c = stdFrame cfg := by
  unfold validateAddOnCronJob at h
  split at h; · cases h; rfl
  split at h; · exact Except.noConfusion h
  dsimp only at h
  repeat' (split at h <;> try exact Except.noConfusion h)
  all_goals cases h
  all_goals rfl

theorem fillSecretsWrites_enable (n p : String) (a : AddOnSecrets) :
    (fillSecretsWrites n p a).enable = a.enable := by
  unfold fillSecretsWrites
  dsimp only
  repeat' split
  all_goals rfl

theorem fillSecretsReads_enable (n p : String) (a : AddOnSecrets) :
    (fillSecretsReads n p a).enable = a.enable := by
  unfold fillSecretsReads
  split <;> rfl

theorem stdFrame_setSecrets (cfg : Config) (a : AddOnSecrets)
    (he : a.enable = cfg.addOnSecrets.enable) :
    stdFrame { cfg with addOnSecrets := a } = stdFrame cfg := by
  unfold stdFrame auxFrame enFrame pathFrame
  dsimp only
  rw [he]

theorem validateAddOnSecrets_frame {cfg c : Config}
    (h : validateAddOnSecrets cfg = .ok c) : stdFrame c = stdFrame cfg := by
  unfold validateAddOnSecrets at h
  split at h; · cases h; rfl
  split at h; · exact Except.noConfusion h
  dsimp only at h
  split at h; · exact Except.noConfusion h
  split at h; · exact Except.noConfusion h
  cases h
  exact stdFrame_setSecrets cfg _
    (by rw [fillSecretsReads_enable, fillSecretsWrites_enable])

theorem fillIRSANamespace_enable (n : String) (a : AddOnIRSA) :
    (fillIRSANamespace n a).enable = a.enable := by
  unfold fillIRSANamespace; split <;> rfl

theorem fillIRSARoleName_enable (n : String) (a : AddOnIRSA) :
    (fillIRSARoleName n a).enable = a.enable := by
  unfold fillIRSARoleName; split <;> rfl

theorem fillIRSAServiceAccount_enable (n : String) (a : AddOnIRSA) :
    (fillIRSAServiceAccount n a).enable = a.enable := by
  unfold fillIRSAServiceAccount; split <;> rfl

theorem fillIRSAConfigMap_enable (n : String) (a : AddOnIRSA) :
    (fillIRSAConfigMap n a).enable = a.enable := by
  unfold fillIRSAConfigMap; split <;> rfl

theorem fillIRSAConfigMapScript_enable (n : String) (a : AddOnIRSA) :
    (fillIRSAConfigMapScript n a).enable = a.enable := by
  unfold fillIRSAConfigMapScript; split <;> rfl

theorem fillIRSAS3Key_enable (n : String) (a : AddOnIRSA) :
    (fillIRSAS3Key n a).enable = a.enable := by
  unfold fillIRSAS3Key; split <;> rfl

theorem fillIRSADeploymentName_enable (n : String) (a : AddOnIRSA) :
    (fillIRSADeploymentName n a).enable = a.enable := by
  unfold fillIRSADeploymentName; split <;> rfl

theorem fillIRSADeploymentResultPath_enable (n p : String) (a : AddOnIRSA) :
    (fillIRSADeploymentResultPath n p a).enable = a.enable := by
  unfold fillIRSADeploymentResultPath; split <;> rfl

theorem fillIRSADefaults_enable (n p : String) (a : AddOnIRSA) :
    (fillIRSADefaults n p a).enable = a.enable := by
  unfold fillIRSADefaults
  rw [fillIRSADeploymentResultPath_enable, fillIRSADeploymentName_enable, fillIRSAS3Key_enable,
    fillIRSAConfigMapScript_enable, fillIRSAConfigMap_enable, fillIRSAServiceAccount_enable,
    fillIRSARoleName_enable, fillIRSANamespace_enable]

theorem stdFrame_setIRSA (cfg : Config) (a : AddOnIRSA)
    (he : a.enable = cfg.addOnIRSA.enable) :
    stdFrame { cfg with addOnIRSA := a } = stdFrame cfg := by
  unfold stdFrame auxFrame enFrame pathFrame
  dsimp only
  rw [he]

theorem validateAddOnIRSA_frame {cfg c : Config}
    (h : validateAddOnIRSA cfg = .ok c) : stdFrame c = stdFrame cfg := by
  unfold validateAddOnIRSA at h
  split at h; · cases h; rfl
  split at h; · exact Except.noConfusion h
  split at h; · exact Except.noConfusion h
  split at h; · exact Except.noConfusion h
  cases h
  exact stdFrame_setIRSA cfg _ (fillIRSADefaults_enable _ _ _)

theorem validateAddOnAppMesh_frame {cfg c : Config}
    (h : validateAddOnAppMesh cfg = .ok c) : stdFrame c = stdFrame cfg := by
  unfold validateAddOnAppMesh at h
  split at h; · cases h; rfl
  split at h; · exact Except.noConfusion h
  cases h; split <;> rfl

theorem fargateRoleStep_frame {cfg c : Config} (h : fargateRoleStep cfg = .ok c) :
    stdFrame c = stdFrame cfg := by
  unfold fargateRoleStep at h
  repeat' ((try dsimp only at h); split at h <;> try exact Except.noConfusion h)
  all_goals cases h
  all_goals rfl

theorem fillFargateNames_enable (n r : String) (a : AddOnFargate) :
    (fillFargateNames n r a).enable = a.enable := by
  unfold fillFargateNames
  dsimp only
  repeat' split
  all_goals rfl

theorem fgFrame_of_stdFrame {a b : Config} (h : stdFrame a = stdFrame b) :
    fgFrame a = fgFrame b := by
  have h1 := congrArg (fun t => t.1.1) h
  have h2 := congrArg (fun t => t.2) h
  simp only [stdFrame, auxFrame] at h1 h2
  unfold fgFrame
  rw [h1, h2]

theorem fgFrame_setFargate (cfg : Config) (a : AddOnFargate)
    (he : a.enable = cfg.addOnFargate.enable) :
    fgFrame { cfg with addOnFargate := a } = fgFrame cfg := by
  unfold fgFrame enFrame pathFrame
  dsimp only
  rw [he]

theorem validateAddOnFargate_frame {x : Ext} {cfg c : Config}
    (h : validateAddOnFargate x cfg = .ok c) : fgFrame c = fgFrame cfg := by
  unfold validateAddOnFargate at h
  split at h; · cases h; rfl
  split at h; · exact Except.noConfusion h
  split at h; · exact Except.noConfusion h
  rw [fgFrame_of_stdFrame (fargateRoleStep_frame h)]
  exact fgFrame_setFargate cfg _ (fillFargateNames_enable _ _ _)

theorem validate_decompose {x : Ext} {cfg c : Config}
    (h : ValidateAndSetDefaults x cfg = .ok c) :
    ∃ c1 c2 c3 c4 c5 c6 c7 c8 c9 c10 c11 c12,
      validateConfig x cfg = .ok c1 ∧
      validateParameters x c1 = .ok c2 ∧
      validateAddOnNodeGroups x c2 = .ok c3 ∧
      validateAddOnManagedNodeGroups x c3 = .ok c4 ∧
      validateAddOnNLBHelloWorld c4 = .ok c5 ∧
      validateAddOnALB2048 c5 = .ok c6 ∧
      validateAddOnJobPi c6 = .ok c7 ∧
      validateAddOnJobEcho c7 = .ok c8 ∧
      validateAddOnCronJob c8 = .ok c9 ∧
      validateAddOnSecrets c9 = .ok c10 ∧
      validateAddOnIRSA c10 = .ok c11 ∧
      validateAddOnFargate x c11 = .ok c12 ∧
      validateAddOnAppMesh c12 = .ok c := by
  unfold ValidateAndSetDefaults at h
  obtain ⟨c1, h1, h⟩ := thenE_ok h
  obtain ⟨c2, h2, h⟩ := thenE_ok h
  obtain ⟨c3, h3, h⟩ := thenE_ok h
  obtain ⟨c4, h4, h⟩ := thenE_ok h
  obtain ⟨c5, h5, h⟩ := thenE_ok h
  obtain ⟨c6, h6, h⟩ := thenE_ok h
  obtain ⟨c7, h7, h⟩ := thenE_ok h
  obtain ⟨c8, h8, h⟩ := thenE_ok h
  obtain ⟨c9, h9, h⟩ := thenE_ok h
  obtain ⟨c10, h10, h⟩ := thenE_ok h
  obtain ⟨c11, h11, h⟩ := thenE_ok h
  obtain ⟨c12, h12, h⟩ := thenE_ok h
  exact ⟨c1, c2, c3, c4, c5, c6, c7, c8, c9, c10, c11, c12,
    wrapE_ok h1, wrapE_ok h2, wrapE_ok h3, wrapE_ok h4, wrapE_ok h5, wrapE_ok h6,
    wrapE_ok h7, wrapE_ok h8, wrapE_ok h9, wrapE_ok h10, wrapE_ok h11, wrapE_ok h12,
    wrapE_ok h⟩

theorem auxFrame_of_stdFrame {a b : Config} (h : stdFrame a = stdFrame b) :
    auxFrame a = auxFrame b := congrArg Prod.fst h

theorem enFrame_of_auxFrame {a b : Config} (h : auxFrame a = auxFrame b) :
    enFrame a = enFrame b := congrArg Prod.fst h

theorem enFrame_of_fgFrame {a b : Config} (h : fgFrame a = fgFrame b) :
    enFrame a = enFrame b := congrArg Prod.fst h

theorem validateAddOnNLBHelloWorld_needsNG {cfg c : Config}
    (h : validateAddOnNLBHelloWorld cfg = .ok c)
    (he : cfg.addOnNLBHelloWorld.enable = true) (hng : cfg.addOnNodeGroups.enable = false)
    (hmng : cfg.addOnManagedNodeGroups.enable = false) : False := by
  unfold validateAddOnNLBHelloWorld IsEnabledAddOnNLBHelloWorld IsEnabledAddOnNodeGroups
    IsEnabledAddOnManagedNodeGroups at h
  rw [he, hng, hmng] at h
  simp at h

theorem validateAddOnALB2048_needsNG {cfg c : Config}
    (h : validateAddOnALB2048 cfg = .ok c)
    (he : cfg.addOnALB2048.enable = true) (hng : cfg.addOnNodeGroups.enable = false)
    (hmng : cfg.addOnManagedNodeGroups.enable = false) : False := by
  unfold validateAddOnALB2048 IsEnabledAddOnALB2048 IsEnabledAddOnNodeGroups
    IsEnabledAddOnManagedNodeGroups at h
  rw [he, hng, hmng] at h
  simp at h

theorem validateAddOnJobPi_needsNG {cfg c : Config}
    (h : validateAddOnJobPi cfg = .ok c)
    (he : cfg.addOnJobPi.enable = true) (hng : cfg.addOnNodeGroups.enable = false)
    (hmng : cfg.addOnManagedNodeGroups.enable = false) : False := by
  unfold validateAddOnJobPi IsEnabledAddOnJobPi IsEnabledAddOnNodeGroups
    IsEnabledAddOnManagedNodeGroups at h
  rw [he, hng, hmng] at h
  simp at h

theorem validateAddOnJobEcho_needsNG {cfg c : Config}
    (h : validateAddOnJobEcho cfg = .ok c)
    (he : cfg.addOnJobEcho.enable = true) (hng : cfg.addOnNodeGroups.enable = false)
    (hmng : cfg.addOnManagedNodeGroups.enable = false) : False := by
  unfold validateAddOnJobEcho IsEnabledAddOnJobEcho IsEnabledAddOnNodeGroups
    IsEnabledAddOnManagedNodeGroups at h
  rw [he, hng, hmng] at h
  simp at h

theorem validateAddOnCronJob_needsNG {cfg c : Config}
    (h : validateAddOnCronJob cfg = .ok c)
    (he : cfg.addOnCronJob.enable = true) (hng : cfg.addOnNodeGroups.enable = false)
    (hmng : cfg.addOnManagedNodeGroups.enable = false) : False := by
  unfold validateAddOnCronJob IsEnabledAddOnCronJob IsEnabledAddOnNodeGroups
    IsEnabledAddOnManagedNodeGroups at h
  rw [he, hng, hmng] at h
  simp at h

theorem validateAddOnSecrets_needsNG {cfg c : Config}
    (h : validateAddOnSecrets cfg = .ok c)
    (he : cfg.addOnSecrets.enable = true) (hng : cfg.addOnNodeGroups.enable = false)
    (hmng : cfg.addOnManagedNodeGroups.enable = false) : False := by
  unfold validateAddOnSecrets IsEnabledAddOnSecrets IsEnabledAddOnNodeGroups
    IsEnabledAddOnManagedNodeGroups at h
  rw [he, hng, hmng] at h
  simp at h

theorem validateAddOnIRSA_needsNG {cfg c : Config}
    (h : validateAddOnIRSA cfg = .ok c)
    (he : cfg.addOnIRSA.enable = true) (hng : cfg.addOnNodeGroups.enable = false)
    (hmng : cfg.addOnManagedNodeGroups.enable = false) : False := by
  unfold validateAddOnIRSA IsEnabledAddOnIRSA IsEnabledAddOnNodeGroups
    IsEnabledAddOnManagedNodeGroups at h
  rw [he, hng, hmng] at h
  simp at h

theorem validateAddOnFargate_needsNG {x : Ext} {cfg c : Config}
    (h : validateAddOnFargate x cfg = .ok c)
    (he : cfg.addOnFargate.enable = true) (hng : cfg.addOnNodeGroups.enable = false)
    (hmng : cfg.addOnManagedNodeGroups.enable = false) : False := by
  unfold validateAddOnFargate IsEnabledAddOnFargate IsEnabledAddOnNodeGroups
    IsEnabledAddOnManagedNodeGroups at h
  rw [he, hng, hmng] at h
  simp at h

theorem validateAddOnAppMesh_needsNG {cfg c : Config}
    (h : validateAddOnAppMesh cfg = .ok c)
    (he : cfg.addOnAppMesh.enable = true) (hng : cfg.addOnNodeGroups.enable = false)
    (hmng : cfg.addOnManagedNodeGroups.enable = false) : False := by
  unfold validateAddOnAppMesh IsEnabledAddOnAppMesh IsEnabledAddOnNodeGroups
    IsEnabledAddOnManagedNodeGroups at h
  rw [he, hng, hmng] at h
  simp at h

/-- Claim C3: enabling any workload add-on (NLB hello world, ALB 2048,
job pi, job echo, cron job, secrets, IRSA, fargate, app mesh) while both
node-group add-ons are disabled makes `ValidateAndSetDefaults` fail. -/
theorem validate_workload_requires_nodegroup (x : Ext) (cfg : Config)
    (hw : cfg.addOnNLBHelloWorld.enable = true ∨ cfg.addOnALB2048.enable = true ∨
      cfg.addOnJobPi.enable = true ∨ cfg.addOnJobEcho.enable = true ∨
      cfg.addOnCronJob.enable = true ∨ cfg.addOnSecrets.enable = true ∨
      cfg.addOnIRSA.enable = true ∨ cfg.addOnFargate.enable = true ∨
      cfg.addOnAppMesh.enable = true)
    (hng : cfg.addOnNodeGroups.enable = false)
    (hmng : cfg.addOnManagedNodeGroups.enable = false) :
    resultIsError (ValidateAndSetDefaults x cfg) = true := by
  cases hr : ValidateAndSetDefaults x cfg with
  | error e => rfl
  | ok c =>
    exfalso
    obtain ⟨c1, c2, c3, c4, c5, c6, c7, c8, c9, c10, c11, c12,
      h1, h2, h3, h4, h5, h6, h7, h8, h9, h10, h11, h12, h13⟩ := validate_decompose hr
    have g1 := enFrame_of_auxFrame (validateConfig_frame h1)
    have g2 := enFrame_of_auxFrame (auxFrame_of_stdFrame (validateParameters_frame h2))
    have g3 := enFrame_of_auxFrame (auxFrame_of_stdFrame (validateAddOnNodeGroups_frame h3))
    have g4 := enFrame_of_auxFrame (auxFrame_of_stdFrame (validateAddOnManagedNodeGroups_frame h4))
    have g5 := enFrame_of_auxFrame (auxFrame_of_stdFrame (validateAddOnNLBHelloWorld_frame h5))
    have g6 := enFrame_of_auxFrame (auxFrame_of_stdFrame (validateAddOnALB2048_frame h6))
    have g7 := enFrame_of_auxFrame (auxFrame_of_stdFrame (validateAddOnJobPi_frame h7))
    have g8 := enFrame_of_auxFrame (auxFrame_of_stdFrame (validateAddOnJobEcho_frame h8))
    have g9 := enFrame_of_auxFrame (auxFrame_of_stdFrame (validateAddOnCronJob_frame h9))
    have g10 := enFrame_of_auxFrame (auxFrame_of_stdFrame (validateAddOnSecrets_frame h10))
    have g11 := enFrame_of_auxFrame (auxFrame_of_stdFrame (validateAddOnIRSA_frame h11))
    have g12 := enFrame_of_fgFrame (validateAddOnFargate_frame h12)
    have k4 : enFrame c4 = enFrame cfg := by rw [g4, g3, g2, g1]
    have k5 : enFrame c5 = enFrame cfg := by rw [g5, k4]
    have k6 : enFrame c6 = enFrame cfg := by rw [g6, k5]
    have k7 : enFrame c7 = enFrame cfg := by rw [g7, k6]
    have k8 : enFrame c8 = enFrame cfg := by rw [g8, k7]
    have k9 : enFrame c9 = enFrame cfg := by rw [g9, k8]
    have k10 : enFrame c10 = enFrame cfg := by rw [g10, k9]
    have k11 : enFrame c11 = enFrame cfg := by rw [g11, k10]
    have k12 : enFrame c12 = enFrame cfg := by rw [g12, k11]
    simp only [enFrame, Prod.mk.injEq] at k4 k5 k6 k7 k8 k9 k10 k11 k12
    rcases hw with he | he | he | he | he | he | he | he | he
    · exact validateAddOnNLBHelloWorld_needsNG h5 (k4.2.2.2.1.trans he)
        (k4.2.1.trans hng) (k4.2.2.1.trans hmng)
    · exact validateAddOnALB2048_needsNG h6 (k5.2.2.2.2.1.trans he)
        (k5.2.1.trans hng) (k5.2.2.1.trans hmng)
    · exact validateAddOnJobPi_needsNG h7 (k6.2.2.2.2.2.1.trans he)
        (k6.2.1.trans hng) (k6.2.2.1.trans hmng)
    · exact validateAddOnJobEcho_needsNG h8 (k7.2.2.2.2.2.2.1.trans he)
        (k7.2.1.trans hng) (k7.2.2.1.trans hmng)
    · exact validateAddOnCronJob_needsNG h9 (k8.2.2.2.2.2.2.2.1.trans he)
        (k8.2.1.trans hng) (k8.2.2.1.trans hmng)
    · exact validateAddOnSecrets_needsNG h10 (k9.2.2.2.2.2.2.2.2.1.trans he)
        (k9.2.1.trans hng) (k9.2.2.1.trans hmng)
    · exact validateAddOnIRSA_needsNG h11 (k10.2.2.2.2.2.2.2.2.2.1.trans he)
        (k10.2.1.trans hng) (k10.2.2.1.trans hmng)
    · exact validateAddOnFargate_needsNG h12 (k11.2.2.2.2.2.2.2.2.2.2.1.trans he)
        (k11.2.1.trans hng) (k11.2.2.1.trans hmng)
    · exact validateAddOnAppMesh_needsNG h13 (k12.2.2.2.2.2.2.2.2.2.2.2.1.trans he)
        (k12.2.1.trans hng) (k12.2.2.1.trans hmng)

/-- Witness for `validate_workload_requires_nodegroup`: NLB hello world
enabled with no node groups. -/
theorem validate_workload_requires_nodegroup_witness :
    resultIsError (ValidateAndSetDefaults extW
      { cfgBase with addOnNLBHelloWorld := { cfgBase.addOnNLBHelloWorld with enable := true } }) =
      true :=
  validate_workload_requires_nodegroup extW _ (Or.inl rfl) rfl rfl

theorem fillLogOutputs_eq (z : Config) :
    fillLogOutputs z = { z with logOutputs := logOutputsSpec z.configPath z.logOutputs } := by
  unfold fillLogOutputs logOutputsSpec
  split <;> rfl

theorem fillKubectl_eq (z : Config) :
    fillKubectlCommandsOutputPath z =
      { z with kubectlCommandsOutputPath :=
          kubectlSpec z.configPath z.kubectlCommandsOutputPath } := by
  unfold fillKubectlCommandsOutputPath kubectlSpec
  dsimp only
  repeat' split
  all_goals rfl

theorem fillRemoteAccess_eq (z : Config) :
    fillRemoteAccessCommandsOutputPath z =
      { z with remoteAccessCommandsOutputPath :=
          sshSpec z.configPath z.remoteAccessCommandsOutputPath } := by
  unfold fillRemoteAccessCommandsOutputPath sshSpec
  dsimp only
  repeat' split
  all_goals rfl

theorem fillAfterCluster_eq (z : Config) :
    fillCommandAfterCreateClusterOutputPath z =
      { z with commandAfterCreateClusterOutputPath :=
          afterClusterSpec z.configPath z.commandAfterCreateClusterOutputPath } := by
  unfold fillCommandAfterCreateClusterOutputPath afterClusterSpec
  dsimp only
  repeat' split
  all_goals rfl

theorem fillAfterAddOns_eq (z : Config) :
    fillCommandAfterCreateAddOnsOutputPath z =
      { z with commandAfterCreateAddOnsOutputPath :=
          afterAddOnsSpec z.configPath z.commandAfterCreateAddOnsOutputPath } := by
  unfold fillCommandAfterCreateAddOnsOutputPath afterAddOnsSpec
  dsimp only
  repeat' split
  all_goals rfl

theorem fillKubeConfig_eq (z : Config) :
    fillKubeConfigPath z =
      { z with kubeConfigPath := kubeConfigSpec z.configPath z.kubeConfigPath } := by
  unfold fillKubeConfigPath kubeConfigSpec
  split <;> rfl

theorem fillOutputPaths_eq (z : Config) :
    fillOutputPaths z = { z with
      logOutputs := logOutputsSpec z.configPath z.logOutputs
      kubectlCommandsOutputPath := kubectlSpec z.configPath z.kubectlCommandsOutputPath
      remoteAccessCommandsOutputPath := sshSpec z.configPath z.remoteAccessCommandsOutputPath
      commandAfterCreateClusterOutputPath :=
        afterClusterSpec z.configPath z.commandAfterCreateClusterOutputPath
      commandAfterCreateAddOnsOutputPath :=
        afterAddOnsSpec z.configPath z.commandAfterCreateAddOnsOutputPath
      kubeConfigPath := kubeConfigSpec z.configPath z.kubeConfigPath } := by
  unfold fillOutputPaths
  rw [fillLogOutputs_eq, fillKubectl_eq, fillRemoteAccess_eq, fillAfterCluster_eq,
    fillAfterAddOns_eq, fillKubeConfig_eq]

theorem resolveConfigPath_nonempty {x : Ext} {cfg : Config} (hne : cfg.configPath ≠ "") :
    resolveConfigPath x cfg = .ok cfg := by
  unfold resolveConfigPath
  rw [if_neg hne]

theorem pathFrame_fillS3 (z : Config) : pathFrame (fillS3 z) = pathFrame z := by
  unfold fillS3
  dsimp only
  repeat' split
  all_goals rfl

theorem pathFrame_of_stdFrame {a b : Config} (h : stdFrame a = stdFrame b) :
    pathFrame a = pathFrame b := congrArg Prod.snd h

theorem pathFrame_of_fgFrame {a b : Config} (h : fgFrame a = fgFrame b) :
    pathFrame a = pathFrame b := congrArg Prod.snd h

theorem validateConfig_paths {x : Ext} {cfg c : Config} (hne : cfg.configPath ≠ "")
    (h : validateConfig x cfg = .ok c) :
    pathFrame c = pathFrame (fillOutputPaths cfg) := by
  unfold validateConfig at h
  obtain ⟨b1, h1, h⟩ := thenE_ok h
  obtain ⟨b2, h2, h⟩ := thenE_ok h
  obtain ⟨b3, h3, h⟩ := thenE_ok h
  obtain ⟨b4, h4, h⟩ := thenE_ok h
  obtain ⟨b5, h5, h⟩ := thenE_ok h
  cases h
  rw [pathFrame_fillS3, (resolveCommands_frame h5).2, checkKubectlURL_ok h4,
    checkMkdirConfigDir_ok h3]
  rw [checkBasics_ok h1] at h2
  rw [resolveConfigPath_nonempty hne] at h2
  cases h2
  rfl

theorem ext_append_kubectl (s : String) : filepathExt (s ++ ".kubectl.sh") = ".sh" := by
  unfold filepathExt
  rw [String.data_append, List.reverse_append]
  rfl

theorem ext_append_ssh (s : String) : filepathExt (s ++ ".ssh.sh") = ".sh" := by
  unfold filepathExt
  rw [String.data_append, List.reverse_append]
  rfl

theorem ext_append_cluster_log (s : String) :
    filepathExt (s ++ ".after-create-cluster.out.log") = ".log" := by
  unfold filepathExt
  rw [String.data_append, List.reverse_append]
  rfl

theorem ext_append_addons_log (s : String) :
    filepathExt (s ++ ".after-create-add-ons.out.log") = ".log" := by
  unfold filepathExt
  rw [String.data_append, List.reverse_append]
  rfl

/-- Claim C4: on a successful `ValidateAndSetDefaults` run with a
non-empty ConfigPath, ConfigPath is kept, each empty output-path field
is filled deterministically from ConfigPath (every `".yaml"` occurrence
removed, plus the field-specific suffix), and each non-empty field keeps
its value except that a missing `.sh`/`.log` extension is appended. -/
theorem validate_fills_output_paths (x : Ext) (cfg c : Config)
    (hne : cfg.configPath ≠ "") (h : ValidateAndSetDefaults x cfg = .ok c) :
    c.configPath = cfg.configPath ∧
    (cfg.kubeConfigPath = "" →
      c.kubeConfigPath = replaceAll cfg.configPath ".yaml" "" ++ ".kubeconfig.yaml") ∧
    (cfg.kubeConfigPath ≠ "" → c.kubeConfigPath = cfg.kubeConfigPath) ∧
    (cfg.kubectlCommandsOutputPath = "" →
      c.kubectlCommandsOutputPath = replaceAll cfg.configPath ".yaml" "" ++ ".kubectl.sh") ∧
    (cfg.kubectlCommandsOutputPath ≠ "" →
      c.kubectlCommandsOutputPath =
        (if filepathExt cfg.kubectlCommandsOutputPath ≠ ".sh" then
          cfg.kubectlCommandsOutputPath ++ ".sh" else cfg.kubectlCommandsOutputPath)) ∧
    (cfg.remoteAccessCommandsOutputPath = "" →
      c.remoteAccessCommandsOutputPath = replaceAll cfg.configPath ".yaml" "" ++ ".ssh.sh") ∧
    (cfg.remoteAccessCommandsOutputPath ≠ "" →
      c.remoteAccessCommandsOutputPath =
        (if filepathExt cfg.remoteAccessCommandsOutputPath ≠ ".sh" then
          cfg.remoteAccessCommandsOutputPath ++ ".sh" else cfg.remoteAccessCommandsOutputPath)) ∧
    (cfg.commandAfterCreateClusterOutputPath = "" →
      c.commandAfterCreateClusterOutputPath =
        replaceAll cfg.configPath ".yaml" "" ++ ".after-create-cluster.out.log") ∧
    (cfg.commandAfterCreateClusterOutputPath ≠ "" →
      c.commandAfterCreateClusterOutputPath =
        (if filepathExt cfg.commandAfterCreateClusterOutputPath ≠ ".log" then
          cfg.commandAfterCreateClusterOutputPath ++ ".log"
        else cfg.commandAfterCreateClusterOutputPath)) ∧
    (cfg.commandAfterCreateAddOnsOutputPath = "" →
      c.commandAfterCreateAddOnsOutputPath =
        replaceAll cfg.configPath ".yaml" "" ++ ".after-create-add-ons.out.log") ∧
    (cfg.commandAfterCreateAddOnsOutputPath ≠ "" →
      c.commandAfterCreateAddOnsOutputPath =
        (if filepathExt cfg.commandAfterCreateAddOnsOutputPath ≠ ".log" then
          cfg.commandAfterCreateAddOnsOutputPath ++ ".log"
        else cfg.commandAfterCreateAddOnsOutputPath)) := by
  obtain ⟨c1, c2, c3, c4, c5, c6, c7, c8, c9, c10, c11, c12,
    h1, h2, h3, h4, h5, h6, h7, h8, h9, h10, h11, h12, h13⟩ := validate_decompose h
  have p1 := validateConfig_paths hne h1
  have p2 := pathFrame_of_stdFrame (validateParameters_frame h2)
  have p3 := pathFrame_of_stdFrame (validateAddOnNodeGroups_frame h3)
  have p4 := pathFrame_of_stdFrame (validateAddOnManagedNodeGroups_frame h4)
  have p5 := pathFrame_of_stdFrame (validateAddOnNLBHelloWorld_frame h5)
  have p6 := pathFrame_of_stdFrame (validateAddOnALB2048_frame h6)
  have p7 := pathFrame_of_stdFrame (validateAddOnJobPi_frame h7)
  have p8 := pathFrame_of_stdFrame (validateAddOnJobEcho_frame h8)
  have p9 := pathFrame_of_stdFrame (validateAddOnCronJob_frame h9)
  have p10 := pathFrame_of_stdFrame (validateAddOnSecrets_frame h10)
  have p11 := pathFrame_of_stdFrame (validateAddOnIRSA_frame h11)
  have p12 := pathFrame_of_fgFrame (validateAddOnFargate_frame h12)
  have p13 := pathFrame_of_stdFrame (validateAddOnAppMesh_frame h13)
  have pAll : pathFrame c = pathFrame (fillOutputPaths cfg) := by
    rw [p13, p12, p11, p10, p9, p8, p7, p6, p5, p4, p3, p2, p1]
  rw [fillOutputPaths_eq] at pAll
  simp only [pathFrame, Prod.mk.injEq] at pAll
  obtain ⟨e1, e2, e3, e4, e5, e6⟩ := pAll
  refine ⟨e1, ?_, ?_, ?_, ?_, ?_, ?_, ?_, ?_, ?_, ?_⟩
  · intro hz; rw [e2]; simp [kubeConfigSpec, hz]
  · intro hz; rw [e2]; simp [kubeConfigSpec, hz]
  · intro hz; rw [e3]; simp [kubectlSpec, hz, ext_append_kubectl]
  · intro hz; rw [e3]; simp [kubectlSpec, hz]
  · intro hz; rw [e4]; simp [sshSpec, hz, ext_append_ssh]
  · intro hz; rw [e4]; simp [sshSpec, hz]
  · intro hz; rw [e5]; simp [afterClusterSpec, hz, ext_append_cluster_log]
  · intro hz; rw [e5]; simp [afterClusterSpec, hz]
  · intro hz; rw [e6]; simp [afterAddOnsSpec, hz, ext_append_addons_log]
  · intro hz; rw [e6]; simp [afterAddOnsSpec, hz]

/-- Witness for `validate_fills_output_paths`: on `cfgBase` the chain
succeeds and KubeConfigPath is derived from ConfigPath. -/
theorem validate_fills_output_paths_witness :
    cfgBase.configPath ≠ "" ∧
    ValidateAndSetDefaults extW cfgBase = .ok resW ∧
    resW.kubeConfigPath = replaceAll cfgBase.configPath ".yaml" "" ++ ".kubeconfig.yaml" ∧
    resW.kubeConfigPath = "/tmp/abc.kubeconfig.yaml" := by
  have hok : ValidateAndSetDefaults extW cfgBase = .ok resW := by rfl
  have hne : cfgBase.configPath ≠ "" := by decide
  refine ⟨hne, hok, ?_, by rfl⟩
  exact (validate_fills_output_paths extW cfgBase resW hne hok).2.1 rfl

theorem char_toNat_ofNat {n : Nat} (h : n.isValidChar) : (Char.ofNat n).toNat = n := by
  rw [Char.ofNat, dif_pos h]
  rfl

theorem toLower_alnum (c : Char)
    (h : (97 ≤ c.toNat ∧ c.toNat ≤ 122) ∨ (65 ≤ c.toNat ∧ c.toNat ≤ 90) ∨
      (48 ≤ c.toNat ∧ c.toNat ≤ 57)) :
    (97 ≤ c.toLower.toNat ∧ c.toLower.toNat ≤ 122) ∨
      (48 ≤ c.toLower.toNat ∧ c.toLower.toNat ≤ 57) := by
  unfold Char.toLower
  rcases h with ⟨h1, h2⟩ | ⟨h1, h2⟩ | ⟨h1, h2⟩
  · rw [if_neg (by omega)]
    exact Or.inl ⟨h1, h2⟩
  · rw [if_pos (by omega)]
    have hv : (c.toNat + 32).isValidChar := Or.inl (by omega)
    rw [char_toNat_ofNat hv]
    omega
  · rw [if_neg (by omega)]
    exact Or.inr ⟨h1, h2⟩

theorem goToLower_strip_charset (s : String) :
    ∀ ch ∈ (goToLower (secretRegexReplaceAll s)).data,
      (97 ≤ ch.toNat ∧ ch.toNat ≤ 122) ∨ (48 ≤ ch.toNat ∧ ch.toNat ≤ 57) := by
  intro ch hch
  obtain ⟨c, hc, hmap⟩ := List.mem_map.mp hch
  have hc2 := (List.mem_filter.mp hc).2
  have hp : (97 ≤ c.toNat ∧ c.toNat ≤ 122) ∨ (65 ≤ c.toNat ∧ c.toNat ≤ 90) ∨
      (48 ≤ c.toNat ∧ c.toNat ≤ 57) := by
    simpa [isAlnumASCII] using hc2
  rw [← hmap]
  exact toLower_alnum c hp

theorem fillFargateNames_secretName (n r : String) (a : AddOnFargate) :
    (fillFargateNames n r a).secretName =
      goToLower (secretRegexReplaceAll
        (if a.secretName = "" then n ++ "addonfargatesecret" else a.secretName)) := by
  unfold fillFargateNames
  dsimp only
  repeat' split
  all_goals rfl

theorem validateAddOnFargate_secret {x : Ext} {cfg c : Config}
    (hen : cfg.addOnFargate.enable = true)
    (h : validateAddOnFargate x cfg = .ok c) :
    c.addOnFargate.secretName =
      goToLower (secretRegexReplaceAll
        (if cfg.addOnFargate.secretName = "" then cfg.name ++ "addonfargatesecret"
         else cfg.addOnFargate.secretName)) := by
  unfold validateAddOnFargate at h
  split at h
  · rename_i hcond
    simp [IsEnabledAddOnFargate, hen] at hcond
  split at h; · exact Except.noConfusion h
  split at h; · exact Except.noConfusion h
  have hs := congrArg (fun t => t.1.2) (fargateRoleStep_frame h)
  simp only [stdFrame, auxFrame] at hs
  rw [hs]
  exact fillFargateNames_secretName cfg.name x.rand10 cfg.addOnFargate

/-- Claim C5: with the fargate add-on enabled, a successful
`ValidateAndSetDefaults` leaves in `AddOnFargate.SecretName` the
lower-cased, non-alphanumeric-stripped version of the prior name (or of
`Name + "addonfargatesecret"` when it was empty), so it contains only
characters in `[a-z0-9]`. -/
theorem validate_fargate_secret_name (x : Ext) (cfg c : Config)
    (hen : cfg.addOnFargate.enable = true)
    (h : ValidateAndSetDefaults x cfg = .ok c) :
    c.addOnFargate.secretName =
      goToLower (secretRegexReplaceAll
        (if cfg.addOnFargate.secretName = "" then cfg.name ++ "addonfargatesecret"
         else cfg.addOnFargate.secretName)) ∧
    ∀ ch ∈ c.addOnFargate.secretName.data,
      (97 ≤ ch.toNat ∧ ch.toNat ≤ 122) ∨ (48 ≤ ch.toNat ∧ ch.toNat ≤ 57) := by
  obtain ⟨c1, c2, c3, c4, c5, c6, c7, c8, c9, c10, c11, c12,
    h1, h2, h3, h4, h5, h6, h7, h8, h9, h10, h11, h12, h13⟩ := validate_decompose h
  have a1 := validateConfig_frame h1
  have a2 := auxFrame_of_stdFrame (validateParameters_frame h2)
  have a3 := auxFrame_of_stdFrame (validateAddOnNodeGroups_frame h3)
  have a4 := auxFrame_of_stdFrame (validateAddOnManagedNodeGroups_frame h4)
  have a5 := auxFrame_of_stdFrame (validateAddOnNLBHelloWorld_frame h5)
  have a6 := auxFrame_of_stdFrame (validateAddOnALB2048_frame h6)
  have a7 := auxFrame_of_stdFrame (validateAddOnJobPi_frame h7)
  have a8 := auxFrame_of_stdFrame (validateAddOnJobEcho_frame h8)
  have a9 := auxFrame_of_stdFrame (validateAddOnCronJob_frame h9)
  have a10 := auxFrame_of_stdFrame (validateAddOnSecrets_frame h10)
  have a11 := auxFrame_of_stdFrame (validateAddOnIRSA_frame h11)
  have hA : auxFrame c11 = auxFrame cfg := by
    rw [a11, a10, a9, a8, a7, a6, a5, a4, a3, a2, a1]
  have hsec : c11.addOnFargate.secretName = cfg.addOnFargate.secretName :=
    congrArg Prod.snd hA
  have hEn : enFrame c11 = enFrame cfg := congrArg Prod.fst hA
  simp only [enFrame, Prod.mk.injEq] at hEn
  have hname : c11.name = cfg.name := hEn.1
  have hfen : c11.addOnFargate.enable = true :=
    (hEn.2.2.2.2.2.2.2.2.2.2.1).trans hen
  have hs12 := validateAddOnFargate_secret hfen h12
  rw [hsec, hname] at hs12
  have hs13 : c.addOnFargate.secretName = c12.addOnFargate.secretName :=
    congrArg (fun t => t.1.2) (validateAddOnAppMesh_frame h13)
  have hfinal : c.addOnFargate.secretName =
      goToLower (secretRegexReplaceAll
        (if cfg.addOnFargate.secretName = "" then cfg.name ++ "addonfargatesecret"
         else cfg.addOnFargate.secretName)) := by
    rw [hs13, hs12]
  refine ⟨hfinal, ?_⟩
  rw [hfinal]
  exact goToLower_strip_charset _

/-- Witness for `validate_fargate_secret_name`: the secret name
`"My-Secret_01"` becomes `"mysecret01"`. -/
theorem validate_fargate_secret_name_witness :
    cfgW5.addOnFargate.enable = true ∧
    ValidateAndSetDefaults extW cfgW5 = .ok resW5 ∧
    resW5.addOnFargate.secretName =
      goToLower (secretRegexReplaceAll
        (if cfgW5.addOnFargate.secretName = "" then cfgW5.name ++ "addonfargatesecret"
         else cfgW5.addOnFargate.secretName)) ∧
    resW5.addOnFargate.secretName = "mysecret01" := by
  have hok : ValidateAndSetDefaults extW cfgW5 = .ok resW5 := by rfl
  exact ⟨rfl, hok, (validate_fargate_secret_name extW cfgW5 resW5 rfl hok).1, by rfl⟩

theorem validateAddOnJobEcho_spec (cfg : Config) (he : cfg.addOnJobEcho.enable = true) :
    (cfg.addOnJobEcho.echoSize > 250000 →
      resultIsError (validateAddOnJobEcho cfg) = true) ∧
    ((cfg.addOnNodeGroups.enable = true ∨ cfg.addOnManagedNodeGroups.enable = true) →
      cfg.addOnJobEcho.echoSize ≤ 250000 → ∃ d, validateAddOnJobEcho cfg = .ok d) := by
  unfold validateAddOnJobEcho IsEnabledAddOnJobEcho IsEnabledAddOnNodeGroups
    IsEnabledAddOnManagedNodeGroups
  rw [he]
  rw [if_neg (by simp)]
  constructor
  · intro hsz
    split
    · rfl
    · dsimp only
      repeat' split
      all_goals first
        | rfl
        | (rename_i hcond; exfalso; revert hcond; dsimp only; omega)
  · intro hng hsz
    rw [if_neg (by rcases hng with hng | hng <;> simp [hng])]
    dsimp only
    split <;> (rw [if_neg (by (try dsimp only); omega)]; exact ⟨_, rfl⟩)

theorem validateAddOnCronJob_spec (cfg : Config) (he : cfg.addOnCronJob.enable = true) :
    (cfg.addOnCronJob.echoSize > 250000 →
      resultIsError (validateAddOnCronJob cfg) = true) ∧
    ((cfg.addOnNodeGroups.enable = true ∨ cfg.addOnManagedNodeGroups.enable = true) →
      cfg.addOnCronJob.echoSize ≤ 250000 → ∃ d, validateAddOnCronJob cfg = .ok d) := by
  unfold validateAddOnCronJob IsEnabledAddOnCronJob IsEnabledAddOnNodeGroups
    IsEnabledAddOnManagedNodeGroups
  rw [he]
  rw [if_neg (by simp)]
  constructor
  · intro hsz
    split
    · rfl
    · dsimp only
      repeat' split
      all_goals first
        | rfl
        | (rename_i hcond; exfalso; revert hcond; dsimp only; omega)
  · intro hng hsz
    rw [if_neg (by rcases hng with hng | hng <;> simp [hng])]
    dsimp only
    split <;> (rw [if_neg (by (try dsimp only); omega)]; exact ⟨_, rfl⟩)

/-- Claim C6: with the echo job (resp. cron job) add-on enabled, an
`EchoSize` above 250000 bytes always makes `ValidateAndSetDefaults`
fail, and an `EchoSize` of at most 250000 is never rejected on that
ground (with a node group enabled, the validator succeeds). -/
theorem validate_echo_size_limit (x : Ext) (cfg : Config) :
    (cfg.addOnJobEcho.enable = true → cfg.addOnJobEcho.echoSize > 250000 →
      resultIsError (ValidateAndSetDefaults x cfg) = true) ∧
    (cfg.addOnCronJob.enable = true → cfg.addOnCronJob.echoSize > 250000 →
      resultIsError (ValidateAndSetDefaults x cfg) = true) ∧
    (∀ c : Config, c.addOnJobEcho.enable = true →
      (c.addOnNodeGroups.enable = true ∨ c.addOnManagedNodeGroups.enable = true) →
      c.addOnJobEcho.echoSize ≤ 250000 → ∃ d, validateAddOnJobEcho c = .ok d) ∧
    (∀ c : Config, c.addOnCronJob.enable = true →
      (c.addOnNodeGroups.enable = true ∨ c.addOnManagedNodeGroups.enable = true) →
      c.addOnCronJob.echoSize ≤ 250000 → ∃ d, validateAddOnCronJob c = .ok d) := by
  refine ⟨?_, ?_, fun c hc hng hsz => (validateAddOnJobEcho_spec c hc).2 hng hsz,
    fun c hc hng hsz => (validateAddOnCronJob_spec c hc).2 hng hsz⟩
  · intro he hsz
    cases hr : ValidateAndSetDefaults x cfg with
    | error e => rfl
    | ok c =>
      exfalso
      obtain ⟨c1, c2, c3, c4, c5, c6, c7, c8, c9, c10, c11, c12,
        h1, h2, h3, h4, h5, h6, h7, h8, h9, h10, h11, h12, h13⟩ := validate_decompose hr
      have g1 := enFrame_of_auxFrame (validateConfig_frame h1)
      have g2 := enFrame_of_auxFrame (auxFrame_of_stdFrame (validateParameters_frame h2))
      have g3 := enFrame_of_auxFrame (auxFrame_of_stdFrame (validateAddOnNodeGroups_frame h3))
      have g4 := enFrame_of_auxFrame
        (auxFrame_of_stdFrame (validateAddOnManagedNodeGroups_frame h4))
      have g5 := enFrame_of_auxFrame (auxFrame_of_stdFrame (validateAddOnNLBHelloWorld_frame h5))
      have g6 := enFrame_of_auxFrame (auxFrame_of_stdFrame (validateAddOnALB2048_frame h6))
      have g7 := enFrame_of_auxFrame (auxFrame_of_stdFrame (validateAddOnJobPi_frame h7))
      have k7 : enFrame c7 = enFrame cfg := by rw [g7, g6, g5, g4, g3, g2, g1]
      simp only [enFrame, Prod.mk.injEq] at k7
      have hee : c7.addOnJobEcho.enable = true :=
        (k7.2.2.2.2.2.2.1).trans he
      have hsz7 : c7.addOnJobEcho.echoSize > 250000 := by
        rw [k7.2.2.2.2.2.2.2.2.2.2.2.2.1]
        exact hsz
      have := (validateAddOnJobEcho_spec c7 hee).1 hsz7
      rw [h8] at this
      exact Bool.noConfusion this
  · intro he hsz
    cases hr : ValidateAndSetDefaults x cfg with
    | error e => rfl
    | ok c =>
      exfalso
      obtain ⟨c1, c2, c3, c4, c5, c6, c7, c8, c9, c10, c11, c12,
        h1, h2, h3, h4, h5, h6, h7, h8, h9, h10, h11, h12, h13⟩ := validate_decompose hr
      have g1 := enFrame_of_auxFrame (validateConfig_frame h1)
      have g2 := enFrame_of_auxFrame (auxFrame_of_stdFrame (validateParameters_frame h2))
      have g3 := enFrame_of_auxFrame (auxFrame_of_stdFrame (validateAddOnNodeGroups_frame h3))
      have g4 := enFrame_of_auxFrame
        (auxFrame_of_stdFrame (validateAddOnManagedNodeGroups_frame h4))
      have g5 := enFrame_of_auxFrame (auxFrame_of_stdFrame (validateAddOnNLBHelloWorld_frame h5))
      have g6 := enFrame_of_auxFrame (auxFrame_of_stdFrame (validateAddOnALB2048_frame h6))
      have g7 := enFrame_of_auxFrame (auxFrame_of_stdFrame (validateAddOnJobPi_frame h7))
      have g8 := enFrame_of_auxFrame (auxFrame_of_stdFrame (validateAddOnJobEcho_frame h8))
      have k8 : enFrame c8 = enFrame cfg := by rw [g8, g7, g6, g5, g4, g3, g2, g1]
      simp only [enFrame, Prod.mk.injEq] at k8
      have hee : c8.addOnCronJob.enable = true :=
        (k8.2.2.2.2.2.2.2.1).trans he
      have hsz8 : c8.addOnCronJob.echoSize > 250000 := by
        rw [k8.2.2.2.2.2.2.2.2.2.2.2.2.2]
        exact hsz
      have := (validateAddOnCronJob_spec c8 hee).1 hsz8
      rw [h9] at this
      exact Bool.noConfusion this

/-- Witness for `validate_echo_size_limit`: echo size 250001 is
rejected; echo size 1000 with a node group enabled passes the
echo-job validator. -/
theorem validate_echo_size_limit_witness :
    (cfgW6.addOnJobEcho.enable = true ∧ cfgW6.addOnJobEcho.echoSize > 250000 ∧
      resultIsError (ValidateAndSetDefaults extW cfgW6) = true) ∧
    (cfgW6b.addOnJobEcho.echoSize ≤ 250000 ∧ ∃ d, validateAddOnJobEcho cfgW6b = .ok d) := by
  refine ⟨⟨rfl, by decide, (validate_echo_size_limit extW cfgW6).1 rfl (by decide)⟩,
    by decide, (validate_echo_size_limit extW cfgW6b).2.2.1 cfgW6b rfl (Or.inl rfl) (by decide)⟩

theorem updateField_unchanged {env : GoEnv} {pfx : String} {f : EnvField}
    (hcond : f.jsonTag = "" ∨ env.getenv (envKey pfx f.jsonTag) = "" ∨ f.readOnly = true) :
    updateField env pfx f = .ok f := by
  unfold updateField
  by_cases hj : f.jsonTag = ""
  · rw [if_pos hj]
  · rw [if_neg hj]
    dsimp only
    rcases hcond with hc | hc | hc
    · exact absurd hc hj
    · rw [if_pos hc]
    · by_cases hsv : env.getenv (envKey pfx f.jsonTag) = ""
      · rw [if_pos hsv]
      · rw [if_neg hsv, if_pos hc]

theorem parseEnvs_unchanged (env : GoEnv) (pfx : String) :
    ∀ (l : List EnvField) (i : Nat) (f : EnvField), l.get? i = some f →
      (f.jsonTag = "" ∨ env.getenv (envKey pfx f.jsonTag) = "" ∨ f.readOnly = true) →
      (parseEnvs env pfx l).1.get? i = some f := by
  intro l
  induction l with
  | nil => intro i f h; simp at h
  | cons g rest ih =>
    intro i f hget hcond
    unfold parseEnvs
    cases i with
    | zero =>
      simp only [List.get?] at hget
      cases hget
      rw [updateField_unchanged hcond]
      rfl
    | succ n =>
      simp only [List.get?] at hget
      cases hu : updateField env pfx g with
      | error e => exact hget
      | ok g2 => exact ih n f hget hcond

theorem UpdateFromEnvs_unchanged (env : GoEnv) :
    ∀ (sections : List (String × List EnvField)) (si : Nat) (pfx : String)
      (fs : List EnvField), sections.get? si = some (pfx, fs) →
      ∀ (i : Nat) (f : EnvField), fs.get? i = some f →
      (f.jsonTag = "" ∨ env.getenv (envKey pfx f.jsonTag) = "" ∨ f.readOnly = true) →
      ∃ fs2, (UpdateFromEnvs env sections).1.get? si = some (pfx, fs2) ∧
        fs2.get? i = some f := by
  intro sections
  induction sections with
  | nil => intro si pfx fs h; simp at h
  | cons sec rest ih =>
    intro si pfx fs hsec i f hf hcond
    obtain ⟨p0, fs0⟩ := sec
    unfold UpdateFromEnvs
    cases si with
    | zero =>
      simp only [List.get?, Option.some.injEq, Prod.mk.injEq] at hsec
      obtain ⟨hp, hfs⟩ := hsec
      subst hp
      subst hfs
      refine ⟨(parseEnvs env p0 fs0).1, ?_, parseEnvs_unchanged env p0 fs0 i f hf hcond⟩
      dsimp only
      cases he : (parseEnvs env p0 fs0).2 <;> rfl
    | succ n =>
      simp only [List.get?] at hsec
      dsimp only
      cases he : (parseEnvs env p0 fs0).2 with
      | some e => exact ⟨fs, hsec, hf⟩
      | none =>
        obtain ⟨fs2, h1, h2⟩ := ih n pfx fs hsec i f hf hcond
        exact ⟨fs2, h1, h2⟩

/-- Claim C10: `UpdateFromEnvs` leaves a struct field unchanged whenever
its environment variable (prefix plus transformed, upper-cased json tag)
is unset or empty, or the field is tagged read-only (or has no json
tag); a field whose value changed must have had a json tag, a non-empty
variable, and no read-only tag. -/
theorem updateFromEnvs_field_frame (env : GoEnv) (sections : List (String × List EnvField))
    (si : Nat) (pfx : String) (fs : List EnvField)
    (hsec : sections.get? si = some (pfx, fs)) (i : Nat) (f : EnvField)
    (hf : fs.get? i = some f) :
    ((f.jsonTag = "" ∨ env.getenv (envKey pfx f.jsonTag) = "" ∨ f.readOnly = true) →
      ∃ fs2, (UpdateFromEnvs env sections).1.get? si = some (pfx, fs2) ∧
        fs2.get? i = some f) ∧
    (∀ fs2 f2, (UpdateFromEnvs env sections).1.get? si = some (pfx, fs2) →
      fs2.get? i = some f2 → f2 ≠ f →
      f.jsonTag ≠ "" ∧ env.getenv (envKey pfx f.jsonTag) ≠ "" ∧ f.readOnly = false) := by
  refine ⟨fun hcond => UpdateFromEnvs_unchanged env sections si pfx fs hsec i f hf hcond, ?_⟩
  intro fs2 f2 hsec2 hf2 hne
  by_cases hcond : f.jsonTag = "" ∨ env.getenv (envKey pfx f.jsonTag) = "" ∨ f.readOnly = true
  · exfalso
    obtain ⟨fs3, hsec3, hf3⟩ := UpdateFromEnvs_unchanged env sections si pfx fs hsec i f hf hcond
    rw [hsec2] at hsec3
    cases hsec3
    rw [hf2] at hf3
    cases hf3
    exact hne rfl
  · push_neg at hcond
    exact ⟨hcond.1, hcond.2.1, by simpa using hcond.2.2⟩

/-- Witness for `updateFromEnvs_field_frame`: the read-only
VersionValue field keeps its value although its variable is set. -/
theorem updateFromEnvs_field_frame_witness :
    envW.getenv (envKey "AWS_K8S_TESTER_EKS_PARAMETERS_" fieldW.jsonTag) = "9.9" ∧
    ∃ fs2, (UpdateFromEnvs envW
        [("AWS_K8S_TESTER_EKS_PARAMETERS_", [fieldW])]).1.get? 0 =
        some ("AWS_K8S_TESTER_EKS_PARAMETERS_", fs2) ∧ fs2.get? 0 = some fieldW := by
  refine ⟨by rfl, ?_⟩
  exact (updateFromEnvs_field_frame envW [("AWS_K8S_TESTER_EKS_PARAMETERS_", [fieldW])]
    0 "AWS_K8S_TESTER_EKS_PARAMETERS_" [fieldW] rfl 0 fieldW rfl).1 (Or.inr (Or.inr rfl))

end AwsK8sTester
